import Mathlib

/-!
# IK goals (robotics/IK.cpp): a shallow embedding

The goal type `IKGoal` of `robotics/IK.cpp` and its operations, over an ordered field `K`
standing for the `Real` of the source (exact arithmetic).  The parts of `math3d`, `math` and
the stream library that `IK.cpp` calls but does not define are either small algebraic models
(vectors, matrices, plane and line projection, fuzzy comparison) or fields of the record
`Math3D`, whose properties appear as explicit hypotheses of the theorems that need them.
-/

namespace IK

/-! ## Vectors, matrices and rigid transforms -/

/-- Modelled from the spec: the `Vector3` of math3d (its declaration is not in the sources):
three real components `x`, `y`, `z`. -/
@[ext] structure Vector3 (K : Type) where
  x : K
  y : K
  z : K
  deriving DecidableEq, Repr

namespace Vector3
variable {K : Type} [LinearOrderedField K]

/-- Modelled from the spec: `Vector3::setZero` / the constant `Zero`, the zero vector. -/
def zero : Vector3 K := ⟨0, 0, 0⟩

/-- Modelled from the spec: vector sum `a+b` of math3d. -/
def add (a b : Vector3 K) : Vector3 K := ⟨a.x + b.x, a.y + b.y, a.z + b.z⟩

/-- Modelled from the spec: vector difference `a-b` (`Vector3::sub`) of math3d. -/
def sub (a b : Vector3 K) : Vector3 K := ⟨a.x - b.x, a.y - b.y, a.z - b.z⟩

/-- Modelled from the spec: vector negation `-a` of math3d. -/
def neg (a : Vector3 K) : Vector3 K := ⟨-a.x, -a.y, -a.z⟩

/-- Modelled from the spec: scaling `c*a` of math3d. -/
def smul (c : K) (a : Vector3 K) : Vector3 K := ⟨c * a.x, c * a.y, c * a.z⟩

/-- Modelled from the spec: the dot product `dot(a,b)` of math3d. -/
def dot (a b : Vector3 K) : K := a.x * b.x + a.y * b.y + a.z * b.z

/-- Modelled from the spec: the cross product `Vector3::setCross` of math3d. -/
def cross (a b : Vector3 K) : Vector3 K :=
  ⟨a.y * b.z - a.z * b.y, a.z * b.x - a.x * b.z, a.x * b.y - a.y * b.x⟩

/-- Modelled from the spec: `Vector3::normSquared`, the squared Euclidean length. -/
def normSquared (a : Vector3 K) : K := dot a a

end Vector3

/-- Modelled from the spec: the `Matrix3` of math3d (its declaration is not in the sources),
kept as its three rows. -/
@[ext] structure Matrix3 (K : Type) where
  r1 : Vector3 K
  r2 : Vector3 K
  r3 : Vector3 K
  deriving DecidableEq, Repr

namespace Matrix3
variable {K : Type} [LinearOrderedField K]

/-- Modelled from the spec: `Matrix3::setIdentity`, the identity matrix. -/
def identity : Matrix3 K := ⟨⟨1, 0, 0⟩, ⟨0, 1, 0⟩, ⟨0, 0, 1⟩⟩

/-- Modelled from the spec: the matrix-vector product `R*v` (`Matrix3::mul(v,out)`). -/
def mulVec (R : Matrix3 K) (v : Vector3 K) : Vector3 K :=
  ⟨Vector3.dot R.r1 v, Vector3.dot R.r2 v, Vector3.dot R.r3 v⟩

/-- Modelled from the spec: the matrix transpose `transpose(R)`. -/
def transpose (R : Matrix3 K) : Matrix3 K :=
  ⟨⟨R.r1.x, R.r2.x, R.r3.x⟩, ⟨R.r1.y, R.r2.y, R.r3.y⟩, ⟨R.r1.z, R.r2.z, R.r3.z⟩⟩

/-- Modelled from the spec: the matrix product `A*B` (`Matrix3::mul(A,B)`). -/
def mul (A B : Matrix3 K) : Matrix3 K :=
  let Bt := transpose B
  ⟨⟨Vector3.dot A.r1 Bt.r1, Vector3.dot A.r1 Bt.r2, Vector3.dot A.r1 Bt.r3⟩,
   ⟨Vector3.dot A.r2 Bt.r1, Vector3.dot A.r2 Bt.r2, Vector3.dot A.r2 Bt.r3⟩,
   ⟨Vector3.dot A.r3 Bt.r1, Vector3.dot A.r3 Bt.r2, Vector3.dot A.r3 Bt.r3⟩⟩

/-- Modelled from the spec: `Matrix3::mulTransposeB(A,B)`, the product of `A` with the
transpose of `B`. -/
def mulTransposeB (A B : Matrix3 K) : Matrix3 K := mul A (transpose B)

/-- Modelled from the spec: `Matrix3::mulTranspose(v,out)`, the product of the transpose of
`R` with `v`. -/
def mulTranspose (R : Matrix3 K) (v : Vector3 K) : Vector3 K := mulVec (transpose R) v

/-- Modelled from the spec: `Matrix3::getRow1`, the first row. -/
def getRow1 (R : Matrix3 K) : Vector3 K := R.r1

/-- Modelled from the spec: `IsFinite(R)`; every entry is a field element, so in the exact
arithmetic of this embedding the test always succeeds. -/
def IsFinite (_R : Matrix3 K) : Bool := true

end Matrix3

/-- Modelled from the spec: the `RigidTransform` of math3d (its declaration is not in the
sources): a rotation matrix `R` and a translation `t`. -/
@[ext] structure RigidTransform (K : Type) where
  R : Matrix3 K
  t : Vector3 K
  deriving DecidableEq, Repr

namespace RigidTransform
variable {K : Type} [LinearOrderedField K]

/-- Modelled from the spec: the action `T*p = T.R*p + T.t` of a rigid transform on a point. -/
def apply (T : RigidTransform K) (p : Vector3 K) : Vector3 K :=
  Vector3.add (Matrix3.mulVec T.R p) T.t

/-- Modelled from the spec: `RigidTransform::mulInverse(p,out)`, the inverse action
`transpose(T.R)*(p - T.t)`. -/
def mulInverse (T : RigidTransform K) (p : Vector3 K) : Vector3 K :=
  Matrix3.mulTranspose T.R (Vector3.sub p T.t)

end RigidTransform

/-! ## The library functions taken as parameters -/

/-- Outputs of `FitFrames` (math3d/rotationfit.h): the residual, the two frames and the
spread vector. -/
structure FitResult (K : Type) where
  res : K
  Tloc : RigidTransform K
  Twor : RigidTransform K
  cov : Vector3 K

/-- The functions of `math` and `math3d` that `IK.cpp` calls and whose definitions are not in
the sources.  They are parameters of the embedding. -/
structure Math3D (K : Type) where
  /-- The default tolerance `Epsilon` of `FuzzyEquals` and `FuzzyZero`. -/
  Epsilon : K
  /-- `Vector3::setNormalized` / `Vector3::inplaceNormalize`. -/
  normalize : Vector3 K → Vector3 K
  /-- `Vector3::getOrthogonalBasis(xb,yb)`. -/
  getOrthogonalBasis : Vector3 K → Vector3 K × Vector3 K
  /-- `GetCanonicalBasis(z,x,y)`. -/
  GetCanonicalBasis : Vector3 K → Vector3 K × Vector3 K
  /-- `GetMinimalRotation(x,y,R)`. -/
  GetMinimalRotation : Vector3 K → Vector3 K → Matrix3 K
  /-- `MomentRotation::getMatrix`: decode a rotation vector. -/
  momentGetMatrix : Vector3 K → Matrix3 K
  /-- `MomentRotation::setMatrix`: encode a rotation matrix. -/
  momentSetMatrix : Matrix3 K → Vector3 K
  /-- `AngleAxisRotation::getMatrix`, from the angle and the axis. -/
  angleAxisGetMatrix : K → Vector3 K → Matrix3 K
  /-- `Atan2(y,x)`. -/
  Atan2 : K → K → K
  /-- `FitFrames(loc,wor,Tloc,Twor,cov)`. -/
  FitFrames : List (Vector3 K) → List (Vector3 K) → FitResult K
  /-- `IsInf(x)`. -/
  IsInf : K → Bool

section Fuzzy
variable {K : Type} [LinearOrderedField K]

/-- Modelled from the spec: `FuzzyEquals(a,b,eps)` of math/math.h, equality up to `eps`. -/
def FuzzyEquals (a b eps : K) : Bool := decide (|a - b| ≤ eps)

/-- Modelled from the spec: `FuzzyZero(a,eps)` of math/math.h, zero up to `eps`. -/
def FuzzyZero (a eps : K) : Bool := decide (|a| ≤ eps)

/-- Modelled from the spec: `Vector3::isEqual(b,eps)`, componentwise equality up to `eps`
("coincide within tolerance"). -/
def Vector3.isEqual (a b : Vector3 K) (eps : K) : Bool :=
  FuzzyEquals a.x b.x eps && FuzzyEquals a.y b.y eps && FuzzyEquals a.z b.z eps

end Fuzzy

/-! ## Plane and line projection -/

section Projection
variable {K : Type} [LinearOrderedField K]

/-- Modelled from the spec: `Plane3D::setPointNormal(a,n)` followed by `Plane3D::project(p)`
(math3d/Plane3D.h is not in the sources): the point of the plane through `a` with normal `n`
closest to `p`. -/
def Plane3D_project (a n p : Vector3 K) : Vector3 K :=
  Vector3.sub p (Vector3.smul (Vector3.dot (Vector3.sub p a) n / Vector3.dot n n) n)

/-- Modelled from the spec: `Line3D::closestPoint(p)` (math3d/Line3D.h is not in the
sources): the point of the line through `source` along `direction` closest to `p`. -/
def Line3D_closestPoint (source direction p : Vector3 K) : Vector3 K :=
  Vector3.add source
    (Vector3.smul (Vector3.dot (Vector3.sub p source) direction / Vector3.dot direction direction)
      direction)

end Projection

/-! ## The goal type -/

/-- Modelled from the spec: the enum `IKGoal::PosConstraint` of IK.h (not in the sources),
with the numbering None=0, Planar=1, Linear=2, Fixed=3 (constrained degrees of freedom). -/
inductive PosConstraint where
  | PosNone
  | PosPlanar
  | PosLinear
  | PosFixed
  deriving DecidableEq, Repr

/-- Modelled from the spec: the enum `IKGoal::RotConstraint` of IK.h (not in the sources),
with the numbering None=0, Axis=1, TwoAxis=2, Fixed=3 (constrained degrees of freedom). -/
inductive RotConstraint where
  | RotNone
  | RotAxis
  | RotTwoAxis
  | RotFixed
  deriving DecidableEq, Repr

/-- The least value of the C++ type `int` (32 bits). -/
def INT_MIN : Int := -2147483648

/-- The greatest value of the C++ type `int` (32 bits). -/
def INT_MAX : Int := 2147483647

/-- A value of the C++ type `int`: an integer within `INT_MIN` and `INT_MAX`. -/
abbrev CInt : Type := { n : Int // INT_MIN ≤ n ∧ n ≤ INT_MAX }

/-- The `int` of value `n`, for `n` within the range. -/
def CInt.mk (n : Int) (h : INT_MIN ≤ n ∧ n ≤ INT_MAX) : CInt := ⟨n, h⟩

/-- Modelled from the spec: the fields of `IKGoal` (IK.h is not in the sources), as listed in
the data model: link indices (of type `int`), the two constraint kinds and the vectors they
give meaning to. -/
@[ext] structure IKGoal (K : Type) where
  link : CInt
  destLink : CInt
  posConstraint : PosConstraint
  localPosition : Vector3 K
  endPosition : Vector3 K
  direction : Vector3 K
  rotConstraint : RotConstraint
  localAxis : Vector3 K
  endRotation : Vector3 K
  deriving DecidableEq, Repr

/-- How a call can end without returning: a failed `Assert`, or `FatalError`. -/
inductive Failure where
  | assertion
  | fatal
  deriving DecidableEq, Repr

/-- Three-entry output array (`Real poserr[3]`, `Real orierr[3]`). -/
@[ext] structure Real3 (K : Type) where
  e0 : K
  e1 : K
  e2 : K
  deriving DecidableEq, Repr

open PosConstraint RotConstraint

section Goal
variable {K : Type} [LinearOrderedField K]

/-- The constructor `IKGoal::IKGoal()`: link 0, destLink -1, both kinds None and
localPosition zero.  The members it leaves uninitialised are the arguments `e`, `d`, `a`, `r`. -/
def IKGoal.init (e d a r : Vector3 K) : IKGoal K :=
  { link := CInt.mk 0 (by decide), destLink := CInt.mk (-1) (by decide),
    posConstraint := PosNone, localPosition := Vector3.zero,
    endPosition := e, direction := d, rotConstraint := RotNone, localAxis := a, endRotation := r }

/-- Modelled from the spec: `IKGoal::SetFixedPosition(point)` (inline in IK.h, not in the
sources): position kind Fixed with the given target point. -/
def SetFixedPosition (g : IKGoal K) (point : Vector3 K) : IKGoal K :=
  { g with posConstraint := PosFixed, endPosition := point }

/-- Modelled from the spec: `IKGoal::SetFreePosition()` (inline in IK.h, not in the sources):
position kind None. -/
def SetFreePosition (g : IKGoal K) : IKGoal K :=
  { g with posConstraint := PosNone }

/-- Modelled from the spec: `IKGoal::SetFreeRotation()` (inline in IK.h, not in the sources):
rotation kind None. -/
def SetFreeRotation (g : IKGoal K) : IKGoal K :=
  { g with rotConstraint := RotNone }

/-- `IKGoal::SetPlanarPosition` (IK.cpp 23-28). -/
def SetPlanarPosition (g : IKGoal K) (point normal : Vector3 K) : IKGoal K :=
  { g with posConstraint := PosPlanar, endPosition := point, direction := normal }

/-- `IKGoal::SetLinearPosition` (IK.cpp 30-35). -/
def SetLinearPosition (g : IKGoal K) (point d : Vector3 K) : IKGoal K :=
  { g with posConstraint := PosLinear, endPosition := point, direction := d }

/-- `IKGoal::SetFixedRotation` (IK.cpp 38-44). -/
def SetFixedRotation (L : Math3D K) (g : IKGoal K) (R : Matrix3 K) : IKGoal K :=
  { g with rotConstraint := RotFixed, endRotation := L.momentSetMatrix R }

/-- `IKGoal::SetFixedTransform` (IK.cpp 16-21). -/
def SetFixedTransform (L : Math3D K) (g : IKGoal K) (T : RigidTransform K) : IKGoal K :=
  SetFixedRotation L (SetFixedPosition { g with localPosition := Vector3.zero } T.t) T.R

/-- `IKGoal::SetAxisRotation` (IK.cpp 46-52): the only check is the `Assert` on the squared
norm of the local axis. -/
def SetAxisRotation (L : Math3D K) (g : IKGoal K) (locAxis worldAxis : Vector3 K) :
    Except Failure (IKGoal K) :=
  let g1 := { g with rotConstraint := RotAxis, localAxis := locAxis }
  if FuzzyEquals (Vector3.normSquared g1.localAxis) 1 L.Epsilon then
    Except.ok { g1 with endRotation := worldAxis }
  else Except.error Failure.assertion

/-- `IKGoal::SetFromPoints` (IK.cpp 54-110). -/
def SetFromPoints (L : Math3D K) (g : IKGoal K) (loc wor : List (Vector3 K)) (tol : K) :
    Except Failure (IKGoal K) :=
  if loc.length ≠ wor.length then Except.error Failure.assertion
  else if loc.length = 0 then
    Except.ok (SetFreeRotation (SetFreePosition g))
  else if loc.length = 1 then
    let g1 := { g with localPosition := loc.getD 0 Vector3.zero }
    Except.ok (SetFreeRotation (SetFixedPosition g1 (wor.getD 0 Vector3.zero)))
  else if loc.length = 2 then
    let loc0 := loc.getD 0 Vector3.zero
    let loc1 := loc.getD 1 Vector3.zero
    let wor0 := wor.getD 0 Vector3.zero
    let wor1 := wor.getD 1 Vector3.zero
    let g1 := { g with localPosition := Vector3.smul (1 / 2) (Vector3.add loc0 loc1) }
    let g2 := SetFixedPosition g1 (Vector3.smul (1 / 2) (Vector3.add wor0 wor1))
    if Vector3.isEqual loc0 loc1 tol || Vector3.isEqual wor0 wor1 tol then
      Except.ok (SetFreeRotation g2)
    else
      let laxis := L.normalize (Vector3.sub loc1 loc0)
      let waxis := L.normalize (Vector3.sub wor1 wor0)
      SetAxisRotation L g2 laxis waxis
  else
    let fit := L.FitFrames loc wor
    if L.IsInf fit.res then
      Except.ok (SetFreeRotation (SetFreePosition g))
    else
      let g1 := { g with localPosition := Vector3.neg fit.Tloc.t }
      let g2 := SetFixedPosition g1 (Vector3.neg fit.Twor.t)
      let g3 := SetFixedRotation L g2 (Matrix3.mul (Matrix3.transpose fit.Twor.R) fit.Tloc.R)
      if |fit.cov.z| < tol then
        if |fit.cov.y| < tol then
          if |fit.cov.x| < tol then
            Except.ok (SetFreeRotation g3)
          else
            SetAxisRotation L g3 (Matrix3.getRow1 fit.Tloc.R) (Matrix3.getRow1 fit.Twor.R)
        else Except.ok g3
      else Except.ok g3

/-- `IKGoal::GetFixedGoalRotation` (IK.cpp 112-117). -/
def GetFixedGoalRotation (L : Math3D K) (g : IKGoal K) : Except Failure (Matrix3 K) :=
  if g.rotConstraint = RotFixed then Except.ok (L.momentGetMatrix g.endRotation)
  else Except.error Failure.assertion

/-- The rotation part of `IKGoal::GetClosestGoalTransform` (IK.cpp 147-173).  The locals `rx`
and `ry` are read before anything is stored in them (lines 157-158); their indeterminate
contents are the arguments `rx0` and `ry0`. -/
def closestRotation (L : Math3D K) (g : IKGoal K) (T0 : RigidTransform K)
    (rx0 ry0 : Vector3 K) : Except Failure (Matrix3 K) :=
  if g.rotConstraint = RotFixed then
    GetFixedGoalRotation L g
  else if g.rotConstraint = RotAxis then
    let R1 := L.GetMinimalRotation g.localAxis (Matrix3.mulVec T0.R g.endRotation)
    let lx := (L.GetCanonicalBasis g.localAxis).1
    let rx := Matrix3.mulVec R1 rx0
    let ry := Matrix3.mulVec R1 ry0
    let refx := Matrix3.mulVec T0.R lx
    let x := Vector3.dot refx rx
    let y := Vector3.dot refx ry
    let theta := L.Atan2 y x
    let Rrot := L.angleAxisGetMatrix theta (Matrix3.mulVec T0.R g.endRotation)
    Except.ok (Matrix3.mul Rrot R1)
  else
    Except.ok T0.R

/-- The position part of `IKGoal::GetClosestGoalTransform` (IK.cpp 175-190), given the
rotation `R` already chosen. -/
def closestTranslation (g : IKGoal K) (T0 : RigidTransform K) (R : Matrix3 K) : Vector3 K :=
  let t := Vector3.sub g.endPosition (Matrix3.mulVec R g.localPosition)
  if g.posConstraint = PosPlanar then
    Plane3D_project t g.direction T0.t
  else if g.posConstraint = PosLinear then
    Line3D_closestPoint t g.direction T0.t
  else if g.posConstraint = PosNone then
    T0.t
  else t

/-- `IKGoal::GetClosestGoalTransform` (IK.cpp 145-191). -/
def GetClosestGoalTransform (L : Math3D K) (g : IKGoal K) (T0 : RigidTransform K)
    (rx0 ry0 : Vector3 K) : Except Failure (RigidTransform K) :=
  match closestRotation L g T0 rx0 ry0 with
  | Except.error e => Except.error e
  | Except.ok R => Except.ok { R := R, t := closestTranslation g T0 R }

/-- `IKGoal::RemovePositionAxis` (IK.cpp 271-293). -/
def RemovePositionAxis (L : Math3D K) (g : IKGoal K) (dir : Vector3 K) : IKGoal K :=
  match g.posConstraint with
  | PosNone => g
  | PosPlanar =>
    if !FuzzyZero (Vector3.dot g.direction dir) L.Epsilon then
      { g with posConstraint := PosNone }
    else g
  | PosLinear =>
    if !FuzzyZero (Vector3.dot g.direction dir) L.Epsilon then
      let v := Vector3.cross g.direction dir
      { g with direction := L.normalize v, posConstraint := PosPlanar }
    else g
  | PosFixed =>
    { g with direction := L.normalize dir, posConstraint := PosLinear }

/-- The position half of `IKGoal::GetError` (IK.cpp 297-309): the entries of `poserr` it
assigns, the others kept. -/
def GetError_pos (L : Math3D K) (g : IKGoal K) (Trel : RigidTransform K) (poserr : Real3 K) :
    Real3 K :=
  let perr := Vector3.sub (RigidTransform.apply Trel g.localPosition) g.endPosition
  if g.posConstraint = PosFixed then
    ⟨perr.x, perr.y, perr.z⟩
  else if g.posConstraint = PosLinear then
    let b := L.getOrthogonalBasis g.direction
    { poserr with e0 := Vector3.dot perr b.1, e1 := Vector3.dot perr b.2 }
  else if g.posConstraint = PosPlanar then
    { poserr with e0 := Vector3.dot perr g.direction }
  else poserr

/-- The rotation half of `IKGoal::GetError` (IK.cpp 311-333). -/
def GetError_rot (L : Math3D K) (g : IKGoal K) (Trel : RigidTransform K) (orierr : Real3 K) :
    Except Failure (Real3 K) :=
  if g.rotConstraint = RotFixed then
    let Rgoal := L.momentGetMatrix g.endRotation
    let Rdiff := Matrix3.mulTransposeB Trel.R Rgoal
    if Matrix3.IsFinite Rdiff then
      let em := L.momentSetMatrix Rdiff
      Except.ok ⟨em.x, em.y, em.z⟩
    else Except.error Failure.assertion
  else if g.rotConstraint = RotAxis then
    let b := L.getOrthogonalBasis g.endRotation
    let curAxis := Matrix3.mulVec Trel.R g.localAxis
    Except.ok { orierr with e0 := Vector3.dot curAxis b.1, e1 := Vector3.dot curAxis b.2 }
  else if g.rotConstraint = RotNone then
    Except.ok orierr
  else Except.error Failure.fatal

/-- `IKGoal::GetError` (IK.cpp 295-334): the two output arrays after the call. -/
def GetError (L : Math3D K) (g : IKGoal K) (Trel : RigidTransform K) (poserr orierr : Real3 K) :
    Except Failure (Real3 K × Real3 K) :=
  match GetError_rot L g Trel orierr with
  | Except.error e => Except.error e
  | Except.ok o => Except.ok (GetError_pos L g Trel poserr, o)

/-- Modelled from the spec: the numeric value of a position kind in IK.h (None 0, Planar 1,
Linear 2, Fixed 3), as compared by the `switch` statements. -/
def PosConstraint.toNat : PosConstraint → Nat
  | PosNone => 0
  | PosPlanar => 1
  | PosLinear => 2
  | PosFixed => 3

/-- Modelled from the spec: the numeric value of a rotation kind in IK.h (None 0, Axis 1,
TwoAxis 2, Fixed 3), as compared by the `switch` statements. -/
def RotConstraint.toNat : RotConstraint → Nat
  | RotNone => 0
  | RotAxis => 1
  | RotTwoAxis => 2
  | RotFixed => 3

/-- Modelled from the spec: the composition `T1*T2` of rigid transforms (first `T2`, then
`T1`). -/
def RigidTransform.mul (T1 T2 : RigidTransform K) : RigidTransform K :=
  ⟨Matrix3.mul T1.R T2.R, Vector3.add (Matrix3.mulVec T1.R T2.t) T1.t⟩

/-- Modelled from the spec: `GetRotationAboutLocalPoint(localpt,pt,R,T)` (not in the
sources): the transform with rotation `R` that takes `localpt` to `pt`, rotating about
`localpt` as pivot. -/
def GetRotationAboutLocalPoint (localpt pt : Vector3 K) (R : Matrix3 K) : RigidTransform K :=
  ⟨R, Vector3.sub pt (Matrix3.mulVec R localpt)⟩

/-- `IKGoal::GetFixedGoalTransform` (IK.cpp 120-126). -/
def GetFixedGoalTransform (L : Math3D K) (g : IKGoal K) : Except Failure (RigidTransform K) :=
  if g.posConstraint = PosFixed then
    if g.rotConstraint = RotFixed then
      Except.ok (GetRotationAboutLocalPoint g.localPosition g.endPosition
        (L.momentGetMatrix g.endRotation))
    else Except.error Failure.assertion
  else Except.error Failure.assertion

/-- `IKGoal::GetBaseEdgeRotation` (IK.cpp 128-131). -/
def GetBaseEdgeRotation (L : Math3D K) (g : IKGoal K) : Matrix3 K :=
  L.GetMinimalRotation g.localAxis g.endRotation

/-- `IKGoal::GetEdgeGoalTransform` (IK.cpp 133-143). -/
def GetEdgeGoalTransform (L : Math3D K) (g : IKGoal K) (theta : K) : RigidTransform K :=
  let R0 := GetBaseEdgeRotation L g
  let RTheta := L.angleAxisGetMatrix theta g.localAxis
  let R := Matrix3.mul R0 RTheta
  ⟨R, Vector3.sub g.endPosition (Matrix3.mulVec R g.localPosition)⟩

/-- `IKGoal::Transform` (IK.cpp 199-215). -/
def Transform (L : Math3D K) (g : IKGoal K) (T : RigidTransform K) :
    Except Failure (IKGoal K) :=
  let g1 := { g with endPosition := RigidTransform.apply T g.endPosition,
                     direction := Matrix3.mulVec T.R g.direction }
  if g1.rotConstraint = RotFixed then
    let R := Matrix3.mul T.R (L.momentGetMatrix g1.endRotation)
    if Matrix3.IsFinite R then
      Except.ok { g1 with endRotation := L.momentSetMatrix R }
    else Except.error Failure.assertion
  else if g1.rotConstraint = RotAxis then
    Except.ok { g1 with endRotation := Matrix3.mulVec T.R g1.endRotation }
  else Except.ok g1

/-- The overload `IKGoal::RemoveRotationAxis(p,axis)` (IK.cpp 217-244): a `switch` on the
numeric value of `rotConstraint` with the cases 0, 1, 2, 3 and no default. -/
def RemoveRotationAxis_point (L : Math3D K) (g : IKGoal K) (p axis : Vector3 K) :
    Except Failure (IKGoal K) :=
  match g.rotConstraint.toNat with
  | 0 => Except.ok g
  | 1 => Except.error Failure.fatal
  | 2 => Except.error Failure.fatal
  | 3 =>
    match GetFixedGoalTransform L g with
    | Except.error e => Except.error e
    | Except.ok T =>
      let locAxis := Matrix3.mulTranspose T.R axis
      let locPos := RigidTransform.mulInverse T p
      match SetAxisRotation L g locAxis axis with
      | Except.error e => Except.error e
      | Except.ok g1 => Except.ok { g1 with localPosition := locPos, endPosition := p }
  | _ => Except.ok g

/-- The overload `IKGoal::RemoveRotationAxis(axis)` (IK.cpp 246-269): a `switch` on the
numeric value of `rotConstraint` whose case labels are `IKGoal::PosNone`,
`IKGoal::RotTwoAxis`, `IKGoal::RotAxis`, `IKGoal::RotFixed`, with no default. -/
def RemoveRotationAxis (L : Math3D K) (g : IKGoal K) (axis : Vector3 K) :
    Except Failure (IKGoal K) :=
  let v := g.rotConstraint.toNat
  if v = PosConstraint.toNat PosNone then Except.ok g
  else if v = RotConstraint.toNat RotTwoAxis then Except.error Failure.fatal
  else if v = RotConstraint.toNat RotAxis then Except.error Failure.fatal
  else if v = RotConstraint.toNat RotFixed then
    match GetFixedGoalTransform L g with
    | Except.error e => Except.error e
    | Except.ok T =>
      let locAxis := Matrix3.mulTranspose T.R axis
      SetAxisRotation L g locAxis axis
  else Except.ok g

end Goal

/-! ## Text streams -/

/-- One whitespace-separated item of a text stream: an integer, a real number, or a single
character.  Numbers are kept as values: they print and parse exactly. -/
inductive Token (K : Type) where
  | int (n : Int)
  | real (x : K)
  | chr (c : Char)
  deriving DecidableEq, Repr

/-- An input stream: the items still to be read and the two error flags of `std::istream`
that `operator >>` can raise. -/
@[ext] structure IStream (K : Type) where
  buf : List (Token K)
  failbit : Bool
  badbit : Bool
  deriving DecidableEq, Repr

section Stream
variable {K : Type} [LinearOrderedField K]

/-- The test `in.fail()`: either error flag is set. -/
def IStream.fail (s : IStream K) : Bool := s.failbit || s.badbit

/-- Extraction `in >> n` of an `int`: nothing happens on a failed stream; an integer numeral
within the range of `int` is consumed and stored; a numeral outside the range is consumed,
sets failbit and stores the nearest bound; anything else sets failbit and stores zero. -/
def readInt (s : IStream K) (v : CInt) : IStream K × CInt :=
  if s.fail then (s, v)
  else match s.buf with
    | Token.int n :: rest =>
      if h : INT_MIN ≤ n ∧ n ≤ INT_MAX then ({ s with buf := rest }, CInt.mk n h)
      else if n < INT_MIN then
        ({ s with buf := rest, failbit := true }, CInt.mk INT_MIN (by decide))
      else ({ s with buf := rest, failbit := true }, CInt.mk INT_MAX (by decide))
    | _ => ({ s with failbit := true }, CInt.mk 0 (by decide))

/-- Extraction `in >> x` of a `Real`: nothing happens on a failed stream; a numeric item is
consumed; anything else sets failbit and stores zero. -/
def readReal (s : IStream K) (v : K) : IStream K × K :=
  if s.fail then (s, v)
  else match s.buf with
    | Token.real x :: rest => ({ s with buf := rest }, x)
    | Token.int n :: rest => ({ s with buf := rest }, (n : K))
    | _ => ({ s with failbit := true }, 0)

/-- Extraction `in >> c` of a `char`: nothing happens on a failed stream; a character item is
consumed; when no character item is next (end of input, or a number, which the record format
never puts there) failbit is set and the variable keeps its value. -/
def readChar (s : IStream K) (c : Char) : IStream K × Char :=
  if s.fail then (s, c)
  else match s.buf with
    | Token.chr c1 :: rest => ({ s with buf := rest }, c1)
    | _ => ({ s with failbit := true }, c)

/-- Modelled from the spec: `operator >>` for `Vector3` (math3d, not in the sources): the
three components in order. -/
def readVector3 (s : IStream K) (v : Vector3 K) : IStream K × Vector3 K :=
  let r1 := readReal s v.x
  let r2 := readReal r1.1 v.y
  let r3 := readReal r2.1 v.z
  (r3.1, ⟨r1.2, r2.2, r3.2⟩)

/-- Modelled from the spec: `operator <<` for `Vector3` (math3d, not in the sources): the
three components in order. -/
def writeVector3 (v : Vector3 K) : List (Token K) :=
  [Token.real v.x, Token.real v.y, Token.real v.z]

/-- The position half of `operator >>` (IK.cpp 341-360): `none` is the `else` branch, an
unrecognised type character. -/
def readPosition (s : IStream K) (data : IKGoal K) (ptype : Char) :
    Option (IStream K × IKGoal K) :=
  if ptype = 'N' then
    some (s, { data with posConstraint := PosNone })
  else if ptype = 'P' then
    let a := readVector3 s data.localPosition
    let b := readVector3 a.1 data.endPosition
    let c := readVector3 b.1 data.direction
    some (c.1, { data with posConstraint := PosPlanar, localPosition := a.2,
                           endPosition := b.2, direction := c.2 })
  else if ptype = 'L' then
    let a := readVector3 s data.localPosition
    let b := readVector3 a.1 data.endPosition
    let c := readVector3 b.1 data.direction
    some (c.1, { data with posConstraint := PosLinear, localPosition := a.2,
                           endPosition := b.2, direction := c.2 })
  else if ptype = 'F' then
    let a := readVector3 s data.localPosition
    let b := readVector3 a.1 data.endPosition
    some (b.1, { data with posConstraint := PosFixed, localPosition := a.2, endPosition := b.2 })
  else none

/-- The rotation half of `operator >>` (IK.cpp 362-381): `none` is the `else` branch, an
unrecognised type character. -/
def readRotation (s : IStream K) (data : IKGoal K) (rtype : Char) :
    Option (IStream K × IKGoal K) :=
  if rtype = 'N' then
    some (s, { data with rotConstraint := RotNone })
  else if rtype = 'T' then
    let a := readVector3 s data.localAxis
    let b := readVector3 a.1 data.endRotation
    some (b.1, { data with rotConstraint := RotTwoAxis, localAxis := a.2, endRotation := b.2 })
  else if rtype = 'A' then
    let a := readVector3 s data.localAxis
    let b := readVector3 a.1 data.endRotation
    some (b.1, { data with rotConstraint := RotAxis, localAxis := a.2, endRotation := b.2 })
  else if rtype = 'F' then
    let a := readVector3 s data.endRotation
    some (a.1, { data with rotConstraint := RotFixed, endRotation := a.2 })
  else none

/-- The reader `operator >> (istream&, IKGoal&)` (IK.cpp 336-383).  `data` is the goal read
into; `ptype0` and `rtype0` are the indeterminate initial contents of the locals `ptype` and
`rtype`. -/
def operatorRead (s : IStream K) (data : IKGoal K) (ptype0 rtype0 : Char) :
    IStream K × IKGoal K :=
  let r1 := readInt s data.link
  let r2 := readInt r1.1 data.destLink
  let data1 := { data with link := r1.2, destLink := r2.2 }
  let r3 := readChar r2.1 ptype0
  match readPosition r3.1 data1 r3.2 with
  | none => ({ r3.1 with badbit := true }, data1)
  | some (s4, data2) =>
    let r5 := readChar s4 rtype0
    match readRotation r5.1 data2 r5.2 with
    | none => ({ r5.1 with badbit := true }, data2)
    | some (s6, data3) => (s6, data3)

/-- The writer `operator << (ostream&, const IKGoal&)` (IK.cpp 385-417): the items it appends
to the output (blanks and line ends only separate items). -/
def operatorWrite (data : IKGoal K) : List (Token K) :=
  [Token.int data.link.val, Token.int data.destLink.val] ++
  (match data.posConstraint with
    | PosNone => [Token.chr 'N']
    | PosPlanar => Token.chr 'P' :: (writeVector3 data.localPosition ++
        writeVector3 data.endPosition ++ writeVector3 data.direction)
    | PosLinear => Token.chr 'L' :: (writeVector3 data.localPosition ++
        writeVector3 data.endPosition ++ writeVector3 data.direction)
    | PosFixed => Token.chr 'F' :: (writeVector3 data.localPosition ++
        writeVector3 data.endPosition)) ++
  (match data.rotConstraint with
    | RotNone => [Token.chr 'N']
    | RotTwoAxis => Token.chr 'T' :: (writeVector3 data.localAxis ++
        writeVector3 data.endRotation)
    | RotAxis => Token.chr 'A' :: (writeVector3 data.localAxis ++ writeVector3 data.endRotation)
    | RotFixed => Token.chr 'F' :: writeVector3 data.endRotation)

end Stream

/-! ## Vocabulary of the statements -/

section Vocabulary
variable {K : Type} [LinearOrderedField K]

/-- Modelled from the spec: the number of position components of a constraint kind
(None 0, Planar 1, Linear 2, Fixed 3). -/
def PosConstraint.dims : PosConstraint → Nat
  | PosNone => 0
  | PosPlanar => 1
  | PosLinear => 2
  | PosFixed => 3

/-- Modelled from the spec: the number of orientation components of a constraint kind
(None 0, Axis 2, Fixed 3; TwoAxis has no error evaluation). -/
def RotConstraint.dims : RotConstraint → Nat
  | RotNone => 0
  | RotAxis => 2
  | RotTwoAxis => 0
  | RotFixed => 3

/-- The array `a` with its first `n` entries set to zero and the others kept. -/
def Real3.zeroFirst (n : Nat) (a : Real3 K) : Real3 K :=
  ⟨if 0 < n then 0 else a.e0, if 1 < n then 0 else a.e1, if 2 < n then 0 else a.e2⟩

/-- A matrix whose product with its own transpose, on either side, is the identity. -/
def Matrix3.IsOrthogonal (R : Matrix3 K) : Prop :=
  Matrix3.mul R (Matrix3.transpose R) = Matrix3.identity ∧
  Matrix3.mul (Matrix3.transpose R) R = Matrix3.identity

/-- The identity rigid transform. -/
def RigidTransform.identity : RigidTransform K := ⟨Matrix3.identity, Vector3.zero⟩

/-- What a read of the record of `g` into the goal `d` is expected to leave: the link
indices and kinds of `g`, the vectors of `g` that its kinds make meaningful, and the vectors
of `d` elsewhere. -/
def IKGoal.overwrite (g d : IKGoal K) : IKGoal K :=
  { link := g.link
    destLink := g.destLink
    posConstraint := g.posConstraint
    localPosition := if g.posConstraint = PosNone then d.localPosition else g.localPosition
    endPosition := if g.posConstraint = PosNone then d.endPosition else g.endPosition
    direction :=
      if g.posConstraint = PosPlanar ∨ g.posConstraint = PosLinear then g.direction
      else d.direction
    rotConstraint := g.rotConstraint
    localAxis :=
      if g.rotConstraint = RotAxis ∨ g.rotConstraint = RotTwoAxis then g.localAxis
      else d.localAxis
    endRotation := if g.rotConstraint = RotNone then d.endRotation else g.endRotation }

/-- The items after the position-type character `p` in a well-formed record. -/
def positionFields (p : Char) (lp ep dir : Vector3 K) : List (Token K) :=
  if p = 'P' ∨ p = 'L' then writeVector3 lp ++ writeVector3 ep ++ writeVector3 dir
  else if p = 'F' then writeVector3 lp ++ writeVector3 ep
  else []

/-- The items after the rotation-type character `r` in a well-formed record. -/
def rotationFields (r : Char) (la er : Vector3 K) : List (Token K) :=
  if r = 'T' ∨ r = 'A' then writeVector3 la ++ writeVector3 er
  else if r = 'F' then writeVector3 er
  else []

end Vocabulary

/-! ## A rational instance of the library -/

section Rational

/-- The matrix `a*I + b*[v]x + c*v*vT`, where `[v]x` is the cross-product matrix of `v`. -/
def rodrigues (a b c : ℚ) (v : Vector3 ℚ) : Matrix3 ℚ :=
  ⟨⟨a + c * v.x * v.x, -b * v.z + c * v.x * v.y, b * v.y + c * v.x * v.z⟩,
   ⟨b * v.z + c * v.y * v.x, a + c * v.y * v.y, -b * v.x + c * v.y * v.z⟩,
   ⟨-b * v.y + c * v.z * v.x, b * v.x + c * v.z * v.y, a + c * v.z * v.z⟩⟩

/-- Two rational vectors completing a unit vector `d` to an orthonormal basis. -/
def ratBasis (d : Vector3 ℚ) : Vector3 ℚ × Vector3 ℚ :=
  if 1 + d.z = 0 then (⟨0, -1, 0⟩, ⟨-1, 0, 0⟩)
  else (⟨1 - d.x * d.x / (1 + d.z), -(d.x * d.y) / (1 + d.z), -d.x⟩,
        ⟨-(d.x * d.y) / (1 + d.z), 1 - d.y * d.y / (1 + d.z), -d.y⟩)

/-- An instance of the library over the rationals, on which the operations can be evaluated.
Every function is rational: lengths use the rational square root (exact on squares), an
angle is kept as the tangent of its half, a rotation vector as a Gibbs vector, and the frame
fit is a placeholder centred on the first point. -/
def ratLib : Math3D ℚ where
  Epsilon := 1 / 100000000
  normalize v := Vector3.smul (Rat.sqrt (Vector3.normSquared v))⁻¹ v
  getOrthogonalBasis := ratBasis
  GetCanonicalBasis := ratBasis
  GetMinimalRotation a b :=
    if 1 + Vector3.dot a b = 0 then rodrigues (-1) 0 2 (ratBasis a).1
    else rodrigues (Vector3.dot a b) 1 (1 / (1 + Vector3.dot a b)) (Vector3.cross a b)
  momentGetMatrix m :=
    rodrigues ((1 - Vector3.dot m m) / (1 + Vector3.dot m m)) (2 / (1 + Vector3.dot m m))
      (2 / (1 + Vector3.dot m m)) m
  momentSetMatrix R :=
    Vector3.smul (1 / (1 + R.r1.x + R.r2.y + R.r3.z))
      ⟨R.r3.y - R.r2.z, R.r1.z - R.r3.x, R.r2.x - R.r1.y⟩
  angleAxisGetMatrix t u :=
    rodrigues ((1 - t * t) / (1 + t * t)) (2 * t / (1 + t * t)) (2 * t * t / (1 + t * t)) u
  Atan2 y x := if y = 0 then 0 else (Rat.sqrt (x * x + y * y) - x) / y
  FitFrames := fun loc wor =>
    ⟨0, ⟨Matrix3.identity, Vector3.neg (loc.getD 0 Vector3.zero)⟩,
        ⟨Matrix3.identity, Vector3.neg (wor.getD 0 Vector3.zero)⟩, ⟨1, 1, 1⟩⟩
  IsInf := fun _ => false

/-- A fully free goal over the rationals with every vector zero. -/
def freeGoal : IKGoal ℚ :=
  IKGoal.init Vector3.zero Vector3.zero Vector3.zero Vector3.zero

/-- A fully free goal whose unused `localPosition` is `(1,2,3)`. -/
def strayGoal : IKGoal ℚ :=
  { freeGoal with localPosition := ⟨1, 2, 3⟩ }

/-- A goal with a Linear position along `(0,0,1)` and a Fixed rotation. -/
def lineGoal : IKGoal ℚ :=
  { freeGoal with posConstraint := PosLinear, localPosition := ⟨1, 0, 0⟩,
                  endPosition := ⟨0, 2, 0⟩, direction := ⟨0, 0, 1⟩,
                  rotConstraint := RotFixed, endRotation := ⟨1, 0, 0⟩ }

/-- A goal with Fixed position and Fixed rotation (a quarter turn about the first axis). -/
def fixedGoal : IKGoal ℚ :=
  { freeGoal with posConstraint := PosFixed, localPosition := ⟨1, 0, 0⟩,
                  endPosition := ⟨0, 2, 0⟩, rotConstraint := RotFixed,
                  endRotation := ⟨1, 0, 0⟩ }

/-- The quarter turn about the first axis, as a rigid transform translated by `(1,1,1)`. -/
def quarterTurn : RigidTransform ℚ :=
  ⟨⟨⟨1, 0, 0⟩, ⟨0, 0, -1⟩, ⟨0, 1, 0⟩⟩, ⟨1, 1, 1⟩⟩

/-- The quarter turn about the third axis, as a rigid transform translated by `(1,1,1)`. -/
def zTurn : RigidTransform ℚ :=
  ⟨⟨⟨0, -1, 0⟩, ⟨1, 0, 0⟩, ⟨0, 0, 1⟩⟩, ⟨1, 1, 1⟩⟩

/-- A goal with Fixed position and an Axis rotation taking `(1,0,0)` to `(0,1,0)`. -/
def axisGoal : IKGoal ℚ :=
  { freeGoal with posConstraint := PosFixed, rotConstraint := RotAxis,
                  localAxis := ⟨1, 0, 0⟩, endRotation := ⟨0, 1, 0⟩ }

end Rational

/-! ## Theorems -/

section Lemmas
variable {K : Type} [LinearOrderedField K]

theorem isEqual_self (a : Vector3 K) {tol : K} (h : 0 ≤ tol) :
    Vector3.isEqual a a tol = true := by
  simp [Vector3.isEqual, FuzzyEquals, h]

theorem perr_eq (R : Matrix3 K) (lp ep t : Vector3 K) :
    Vector3.sub (RigidTransform.apply ⟨R, t⟩ lp) ep
      = Vector3.sub t (Vector3.sub ep (Matrix3.mulVec R lp)) := by
  ext <;> simp [RigidTransform.apply, Vector3.sub, Vector3.add] <;> ring

theorem plane_residual (c n p : Vector3 K) (hn : Vector3.dot n n ≠ 0) :
    Vector3.dot (Vector3.sub (Plane3D_project c n p) c) n = 0 := by
  have h : Vector3.dot (Vector3.sub (Plane3D_project c n p) c) n
      = Vector3.dot (Vector3.sub p c) n
        - Vector3.dot (Vector3.sub p c) n / Vector3.dot n n * Vector3.dot n n := by
    simp only [Plane3D_project, Vector3.dot, Vector3.sub, Vector3.smul]
    ring
  rw [h, div_mul_cancel₀ _ hn, sub_self]

theorem line_residual (c n p b : Vector3 K) (hb : Vector3.dot b n = 0) :
    Vector3.dot (Vector3.sub (Line3D_closestPoint c n p) c) b = 0 := by
  have h : Vector3.dot (Vector3.sub (Line3D_closestPoint c n p) c) b
      = Vector3.dot (Vector3.sub p c) n / Vector3.dot n n * Vector3.dot b n := by
    simp only [Line3D_closestPoint, Vector3.dot, Vector3.sub, Vector3.smul, Vector3.add]
    ring
  rw [h, hb, mul_zero]

/-- The position entries written by `GetError` vanish at the translation chosen by
`GetClosestGoalTransform`, for any rotation `R`. -/
theorem GetError_pos_closest (L : Math3D K) (g : IKGoal K) (T0 : RigidTransform K)
    (R : Matrix3 K) (poserr : Real3 K)
    (hdir : Vector3.normSquared g.direction = 1)
    (hbx : Vector3.dot (L.getOrthogonalBasis g.direction).1 g.direction = 0)
    (hby : Vector3.dot (L.getOrthogonalBasis g.direction).2 g.direction = 0) :
    GetError_pos L g ⟨R, closestTranslation g T0 R⟩ poserr
      = Real3.zeroFirst g.posConstraint.dims poserr := by
  have hn : Vector3.dot g.direction g.direction ≠ 0 := by
    have : Vector3.dot g.direction g.direction = 1 := hdir
    rw [this]
    exact one_ne_zero
  unfold GetError_pos
  simp only [perr_eq]
  rcases hp : g.posConstraint with _ | _ | _ | _
  · simp [closestTranslation, hp, Real3.zeroFirst, PosConstraint.dims]
  · have h := plane_residual (Vector3.sub g.endPosition (Matrix3.mulVec R g.localPosition))
      g.direction T0.t hn
    simp [closestTranslation, hp, Real3.zeroFirst, PosConstraint.dims, h]
  · have h1 := line_residual (Vector3.sub g.endPosition (Matrix3.mulVec R g.localPosition))
      g.direction T0.t _ hbx
    have h2 := line_residual (Vector3.sub g.endPosition (Matrix3.mulVec R g.localPosition))
      g.direction T0.t _ hby
    simp [closestTranslation, hp, Real3.zeroFirst, PosConstraint.dims, h1, h2]
  · simp [closestTranslation, hp, Real3.zeroFirst, PosConstraint.dims, Vector3.sub]

theorem mulVec_mul (A B : Matrix3 K) (v : Vector3 K) :
    Matrix3.mulVec (Matrix3.mul A B) v = Matrix3.mulVec A (Matrix3.mulVec B v) := by
  ext <;> simp [Matrix3.mulVec, Matrix3.mul, Matrix3.transpose, Vector3.dot] <;> ring

theorem mulVec_identity (v : Vector3 K) : Matrix3.mulVec Matrix3.identity v = v := by
  ext <;> simp [Matrix3.mulVec, Matrix3.identity, Vector3.dot]

/-- An orthogonal matrix preserves dot products. -/
theorem dot_mulVec_of_orthogonal (R : Matrix3 K) (hR : Matrix3.IsOrthogonal R)
    (u v : Vector3 K) :
    Vector3.dot (Matrix3.mulVec R u) (Matrix3.mulVec R v) = Vector3.dot u v := by
  have h := hR.2
  simp only [Matrix3.mul, Matrix3.transpose, Matrix3.identity, Vector3.dot, Matrix3.mk.injEq,
    Vector3.mk.injEq] at h
  obtain ⟨⟨h11, h12, h13⟩, ⟨h21, h22, h23⟩, ⟨h31, h32, h33⟩⟩ := h
  simp only [Matrix3.mulVec, Vector3.dot]
  linear_combination u.x * v.x * h11 + u.x * v.y * h12 + u.x * v.z * h13
    + u.y * v.x * h21 + u.y * v.y * h22 + u.y * v.z * h23
    + u.z * v.x * h31 + u.z * v.y * h32 + u.z * v.z * h33

/-- On an Axis goal the rotation chosen by `GetClosestGoalTransform` is an angle-axis matrix
about `T0.R*endRotation` times the minimal rotation from `localAxis` to that axis. -/
theorem closestRotation_axis (L : Math3D K) (g : IKGoal K) (T0 : RigidTransform K)
    (rx0 ry0 : Vector3 K) (hrot : g.rotConstraint = RotAxis) :
    ∃ theta : K, closestRotation L g T0 rx0 ry0
      = Except.ok (Matrix3.mul
          (L.angleAxisGetMatrix theta (Matrix3.mulVec T0.R g.endRotation))
          (L.GetMinimalRotation g.localAxis (Matrix3.mulVec T0.R g.endRotation))) := by
  have hne : RotAxis ≠ RotFixed := by decide
  simp only [closestRotation, hrot, hne, if_false, if_true]
  exact ⟨_, rfl⟩

theorem ratLib_minimal_maps (b : Vector3 ℚ) (hb : Vector3.normSquared b = 1) :
    Matrix3.mulVec (ratLib.GetMinimalRotation ⟨1, 0, 0⟩ b) ⟨1, 0, 0⟩ = b := by
  simp only [Vector3.normSquared, Vector3.dot] at hb
  by_cases hx : 1 + b.x = 0
  · have hbx : b.x = -1 := by linarith
    have hyz : b.y * b.y + b.z * b.z = 0 := by
      rw [hbx] at hb
      linarith
    have hy : b.y = 0 := by nlinarith [mul_self_nonneg b.y, mul_self_nonneg b.z]
    have hz : b.z = 0 := by nlinarith [mul_self_nonneg b.y, mul_self_nonneg b.z]
    ext <;> simp [ratLib, Vector3.dot, hbx, rodrigues, ratBasis, Matrix3.mulVec, hy, hz]
  · ext <;> simp [ratLib, Vector3.dot, hx, rodrigues, Vector3.cross, Matrix3.mulVec]

theorem ratLib_minimal_orthogonal :
    Matrix3.IsOrthogonal (ratLib.GetMinimalRotation ⟨1, 0, 0⟩ ⟨0, 1, 0⟩) := by
  constructor <;>
    simp [ratLib, Vector3.dot, rodrigues, Vector3.cross, Matrix3.mul, Matrix3.transpose,
      Matrix3.identity]

theorem rodrigues_mulVec_self (a b c : ℚ) (v : Vector3 ℚ) :
    Matrix3.mulVec (rodrigues a b c v) v = Vector3.smul (a + c * Vector3.dot v v) v := by
  ext <;> simp only [rodrigues, Matrix3.mulVec, Vector3.dot, Vector3.smul] <;> ring

theorem ratLib_angleAxis_fixes (t : ℚ) (b : Vector3 ℚ) (hb : Vector3.normSquared b = 1) :
    Matrix3.mulVec (ratLib.angleAxisGetMatrix t b) b = b := by
  have ht : (1 + t * t) ≠ 0 := by nlinarith [mul_self_nonneg t]
  have hb1 : Vector3.dot b b = 1 := hb
  have h1 : (1 - t * t) / (1 + t * t) + 2 * t * t / (1 + t * t) * 1 = 1 := by
    field_simp
    ring
  show Matrix3.mulVec (rodrigues _ _ _ b) b = b
  rw [rodrigues_mulVec_self, hb1, h1]
  ext <;> simp [Vector3.smul]

theorem ratLib_angleAxis_orthogonal (t : ℚ) :
    Matrix3.IsOrthogonal (ratLib.angleAxisGetMatrix t ⟨0, 1, 0⟩) := by
  have ht : (1 + t * t) ≠ 0 := by nlinarith [mul_self_nonneg t]
  constructor <;>
    simp only [ratLib, rodrigues, Matrix3.mul, Matrix3.transpose, Matrix3.identity, Vector3.dot,
      Matrix3.mk.injEq, Vector3.mk.injEq] <;>
    refine ⟨⟨?_, ?_, ?_⟩, ⟨?_, ?_, ?_⟩, ⟨?_, ?_, ?_⟩⟩ <;> field_simp <;> ring

theorem plane_project_idem (c n p : Vector3 K) :
    Plane3D_project c n (Plane3D_project c n p) = Plane3D_project c n p := by
  by_cases hn : Vector3.dot n n = 0
  · ext <;> simp [Plane3D_project, hn, Vector3.sub, Vector3.smul]
  · have h := plane_residual c n p hn
    generalize Plane3D_project c n p = q at h
    unfold Plane3D_project
    rw [h]
    ext <;> simp [Vector3.sub, Vector3.smul]

theorem line_closest_idem (c n p : Vector3 K) :
    Line3D_closestPoint c n (Line3D_closestPoint c n p) = Line3D_closestPoint c n p := by
  by_cases hn : Vector3.dot n n = 0
  · ext <;> simp [Line3D_closestPoint, hn, Vector3.sub, Vector3.smul, Vector3.add]
  · have h : Vector3.dot (Vector3.sub (Line3D_closestPoint c n p) c) n
        = Vector3.dot (Vector3.sub p c) n := by
      have h1 : Vector3.dot (Vector3.sub (Line3D_closestPoint c n p) c) n
          = Vector3.dot (Vector3.sub p c) n / Vector3.dot n n * Vector3.dot n n := by
        simp only [Line3D_closestPoint, Vector3.dot, Vector3.sub, Vector3.smul, Vector3.add]
        ring
      rw [h1, div_mul_cancel₀ _ hn]
    have e : ∀ q : Vector3 K, Line3D_closestPoint c n q
        = Vector3.add c
            (Vector3.smul (Vector3.dot (Vector3.sub q c) n / Vector3.dot n n) n) :=
      fun _ => rfl
    rw [e (Line3D_closestPoint c n p), h, ← e p]

/-- Away from the Axis branch `GetClosestGoalTransform` is idempotent: for a goal whose
rotation kind is not Axis, applying it to its own result returns that result. -/
theorem GetClosestGoalTransform_idem_of_not_axis (L : Math3D K) (g : IKGoal K)
    (T0 T1 : RigidTransform K) (rx0 ry0 rx1 ry1 : Vector3 K)
    (hrot : g.rotConstraint ≠ RotAxis)
    (h : GetClosestGoalTransform L g T0 rx0 ry0 = Except.ok T1) :
    GetClosestGoalTransform L g T1 rx1 ry1 = Except.ok T1 := by
  have key : ∀ R : Matrix3 K,
      closestTranslation g ⟨R, closestTranslation g T0 R⟩ R = closestTranslation g T0 R := by
    intro R
    unfold closestTranslation
    rcases hp : g.posConstraint with _ | _ | _ | _
    · simp
    · simp [plane_project_idem]
    · simp [line_closest_idem]
    · simp
  by_cases hf : g.rotConstraint = RotFixed
  · simp only [GetClosestGoalTransform, closestRotation, GetFixedGoalRotation, hf, if_true,
      Except.ok.injEq] at h ⊢
    subst h
    rw [key]
  · simp only [GetClosestGoalTransform, closestRotation, hf, hrot, if_false,
      Except.ok.injEq] at h ⊢
    subst h
    rw [key]

theorem transpose_transpose {F : Type} (R : Matrix3 F) :
    Matrix3.transpose (Matrix3.transpose R) = R := rfl

theorem IsOrthogonal_transpose (R : Matrix3 K) (hR : Matrix3.IsOrthogonal R) :
    Matrix3.IsOrthogonal (Matrix3.transpose R) := by
  unfold Matrix3.IsOrthogonal at *
  rw [transpose_transpose]
  exact ⟨hR.2, hR.1⟩

/-- The transpose of an orthogonal matrix preserves squared norms. -/
theorem normSquared_mulTranspose (R : Matrix3 K) (hR : Matrix3.IsOrthogonal R) (v : Vector3 K) :
    Vector3.normSquared (Matrix3.mulTranspose R v) = Vector3.normSquared v :=
  dot_mulVec_of_orthogonal _ (IsOrthogonal_transpose R hR) v v

/-- An orthogonal matrix times its transpose applied to a vector gives the vector back. -/
theorem mulVec_mulTranspose (R : Matrix3 K) (hR : Matrix3.IsOrthogonal R) (v : Vector3 K) :
    Matrix3.mulVec R (Matrix3.mulTranspose R v) = v := by
  unfold Matrix3.mulTranspose
  rw [← mulVec_mul, hR.1, mulVec_identity]

/-- For an orthonormal triple `a`, `b`, `c`, the squared components of `p` along the three
vectors add up to the squared norm of `p`. -/
theorem orthonormal_sq_sum (a b c p : Vector3 K)
    (haa : Vector3.dot a a = 1) (hbb : Vector3.dot b b = 1) (hcc : Vector3.dot c c = 1)
    (hab : Vector3.dot a b = 0) (hac : Vector3.dot a c = 0) (hbc : Vector3.dot b c = 0) :
    Vector3.dot p a * Vector3.dot p a + Vector3.dot p b * Vector3.dot p b
      + Vector3.dot p c * Vector3.dot p c = Vector3.dot p p := by
  simp only [Vector3.dot] at *
  have h1 : (!![a.x, a.y, a.z; b.x, b.y, b.z; c.x, c.y, c.z] : Matrix (Fin 3) (Fin 3) K)
      * !![a.x, b.x, c.x; a.y, b.y, c.y; a.z, b.z, c.z] = 1 := by
    ext i j
    fin_cases i <;> fin_cases j <;>
      simp [Matrix.mul_apply, Fin.sum_univ_three, Matrix.one_apply] <;> linarith
  have h2 := Matrix.mul_eq_one_comm.mp h1
  have e : ∀ i j, ((!![a.x, b.x, c.x; a.y, b.y, c.y; a.z, b.z, c.z] : Matrix (Fin 3) (Fin 3) K)
      * !![a.x, a.y, a.z; b.x, b.y, b.z; c.x, c.y, c.z]) i j = (1 : Matrix (Fin 3) (Fin 3) K) i j :=
    fun i j => by rw [h2]
  have e00 := e 0 0
  have e01 := e 0 1
  have e02 := e 0 2
  have e11 := e 1 1
  have e12 := e 1 2
  have e22 := e 2 2
  simp [Matrix.mul_apply, Fin.sum_univ_three] at e00 e01 e02 e11 e12 e22
  linear_combination p.x * p.x * e00 + 2 * p.x * p.y * e01 + 2 * p.x * p.z * e02
    + p.y * p.y * e11 + 2 * p.y * p.z * e12 + p.z * p.z * e22

theorem dot_comm (a b : Vector3 K) : Vector3.dot a b = Vector3.dot b a := by
  simp only [Vector3.dot]
  ring

/-- On a good stream whose next item is a numeral within the range of `int`, the extraction
consumes it, stores it and leaves the stream good. -/
theorem readInt_ok {F : Type} (c v : CInt) (rest : List (Token F)) :
    readInt ⟨Token.int c.val :: rest, false, false⟩ v = (⟨rest, false, false⟩, c) := by
  have h : INT_MIN ≤ c.val ∧ c.val ≤ INT_MAX := c.property
  simp only [readInt, IStream.fail, Bool.or_self, Bool.false_eq_true, if_false, dif_pos h]
  rfl

/-- On a good stream whose next item is a numeral above the range of `int`, the extraction
consumes it and sets failbit. -/
theorem readInt_overflow {F : Type} (n : Int) (v : CInt) (rest : List (Token F))
    (h : INT_MAX < n) :
    (readInt ⟨Token.int n :: rest, false, false⟩ v).1 = ⟨rest, true, false⟩ := by
  have h1 : ¬ (INT_MIN ≤ n ∧ n ≤ INT_MAX) := fun hc => absurd hc.2 (not_le.mpr h)
  have h2 : ¬ n < INT_MIN := by
    have : INT_MIN ≤ INT_MAX := by decide
    omega
  simp only [readInt, IStream.fail, Bool.or_self, Bool.false_eq_true, if_false, dif_neg h1,
    if_neg h2]

end Lemmas

/-! ## The claims -/

section Claims
variable {K : Type} [LinearOrderedField K]

/-- C1, the behaviour of the code on an Axis goal: with `localAxis = (1,0,0)`,
`endRotation = (0,1,0)` and the identity as reference, a second application of
`GetClosestGoalTransform` to the result of the first returns a different transform, whatever
the position kind and whatever the indeterminate contents of `rx`, `ry`.  The first result
`T1` takes `localAxis` to `endRotation`; the second takes it to `T1.R*endRotation`, which is
orthogonal to `endRotation`.  The library is taken exact: `GetMinimalRotation(x,y)` takes `x`
to a unit `y`, an angle-axis matrix fixes its unit axis, and both are orthogonal matrices at
the arguments of the first call. -/
theorem C1_axis_goal_not_idempotent (L : Math3D K) (g : IKGoal K)
    (rx0 ry0 rx1 ry1 : Vector3 K)
    (hrot : g.rotConstraint = RotAxis)
    (hl : g.localAxis = ⟨1, 0, 0⟩) (he : g.endRotation = ⟨0, 1, 0⟩)
    (hmin : ∀ b : Vector3 K, Vector3.normSquared b = 1 →
      Matrix3.mulVec (L.GetMinimalRotation ⟨1, 0, 0⟩ b) ⟨1, 0, 0⟩ = b)
    (hminO : Matrix3.IsOrthogonal (L.GetMinimalRotation ⟨1, 0, 0⟩ ⟨0, 1, 0⟩))
    (haa : ∀ (theta : K) (b : Vector3 K), Vector3.normSquared b = 1 →
      Matrix3.mulVec (L.angleAxisGetMatrix theta b) b = b)
    (haaO : ∀ theta : K, Matrix3.IsOrthogonal (L.angleAxisGetMatrix theta ⟨0, 1, 0⟩)) :
    ∃ T1 T2, GetClosestGoalTransform L g RigidTransform.identity rx0 ry0 = Except.ok T1 ∧
      GetClosestGoalTransform L g T1 rx1 ry1 = Except.ok T2 ∧
      Matrix3.mulVec T1.R g.localAxis = g.endRotation ∧
      Matrix3.mulVec T2.R g.localAxis = Matrix3.mulVec T1.R g.endRotation ∧
      Vector3.dot (Matrix3.mulVec T1.R g.endRotation) g.endRotation = 0 ∧
      T2 ≠ T1 := by
  have he1 : Vector3.normSquared (⟨0, 1, 0⟩ : Vector3 K) = 1 := by
    simp [Vector3.normSquared, Vector3.dot]
  -- the first call
  obtain ⟨θ1, hT1⟩ := closestRotation_axis L g RigidTransform.identity rx0 ry0 hrot
  simp only [RigidTransform.identity, mulVec_identity, hl, he] at hT1
  change closestRotation L g RigidTransform.identity rx0 ry0 = _ at hT1
  set R1 := Matrix3.mul (L.angleAxisGetMatrix θ1 ⟨0, 1, 0⟩)
      (L.GetMinimalRotation ⟨1, 0, 0⟩ ⟨0, 1, 0⟩) with hR1
  have hR1l : Matrix3.mulVec R1 ⟨1, 0, 0⟩ = ⟨0, 1, 0⟩ := by
    rw [hR1, mulVec_mul, hmin _ he1, haa _ _ he1]
  have hdot : ∀ u v : Vector3 K,
      Vector3.dot (Matrix3.mulVec R1 u) (Matrix3.mulVec R1 v) = Vector3.dot u v := by
    intro u v
    rw [hR1, mulVec_mul, mulVec_mul, dot_mulVec_of_orthogonal _ (haaO θ1),
      dot_mulVec_of_orthogonal _ hminO]
  have hb1 : Vector3.normSquared (Matrix3.mulVec R1 ⟨0, 1, 0⟩) = 1 := by
    unfold Vector3.normSquared
    rw [hdot]
    exact he1
  have hperp : Vector3.dot (Matrix3.mulVec R1 ⟨0, 1, 0⟩) ⟨0, 1, 0⟩ = 0 := by
    have := hdot ⟨0, 1, 0⟩ ⟨1, 0, 0⟩
    rw [hR1l] at this
    rw [this]
    simp [Vector3.dot]
  -- the second call
  obtain ⟨θ2, hT2⟩ := closestRotation_axis L g
    ⟨R1, closestTranslation g RigidTransform.identity R1⟩ rx1 ry1 hrot
  simp only [hl, he] at hT2
  set R2 := Matrix3.mul (L.angleAxisGetMatrix θ2 (Matrix3.mulVec R1 ⟨0, 1, 0⟩))
      (L.GetMinimalRotation ⟨1, 0, 0⟩ (Matrix3.mulVec R1 ⟨0, 1, 0⟩)) with hR2
  have hR2l : Matrix3.mulVec R2 ⟨1, 0, 0⟩ = Matrix3.mulVec R1 ⟨0, 1, 0⟩ := by
    rw [hR2, mulVec_mul, hmin _ hb1, haa _ _ hb1]
  refine ⟨⟨R1, closestTranslation g RigidTransform.identity R1⟩,
    ⟨R2, closestTranslation g ⟨R1, closestTranslation g RigidTransform.identity R1⟩ R2⟩,
    ?_, ?_, ?_, ?_, ?_, ?_⟩
  · simp only [GetClosestGoalTransform, hT1]
  · simp only [GetClosestGoalTransform, hT2]
  · rw [hl, he]
    exact hR1l
  · rw [hl, he]
    exact hR2l
  · rw [he]
    exact hperp
  · intro h
    have hR : R2 = R1 := congrArg RigidTransform.R h
    have h1 : Matrix3.mulVec R1 (⟨0, 1, 0⟩ : Vector3 K) = ⟨0, 1, 0⟩ := by
      rw [← hR2l, hR, hR1l]
    rw [h1] at hperp
    simp [Vector3.dot] at hperp

/-- Witness of C1: the rational library and the Axis goal with `localAxis = (1,0,0)`,
`endRotation = (0,1,0)`. -/
theorem C1_axis_goal_not_idempotent_witness :
    ∃ T1 T2,
      GetClosestGoalTransform ratLib axisGoal RigidTransform.identity Vector3.zero Vector3.zero
        = Except.ok T1 ∧
      GetClosestGoalTransform ratLib axisGoal T1 Vector3.zero Vector3.zero = Except.ok T2 ∧
      T2 ≠ T1 :=
  match C1_axis_goal_not_idempotent ratLib axisGoal Vector3.zero Vector3.zero Vector3.zero
      Vector3.zero rfl rfl rfl ratLib_minimal_maps ratLib_minimal_orthogonal
      ratLib_angleAxis_fixes ratLib_angleAxis_orthogonal with
  | ⟨T1, T2, h1, h2, _, _, _, hne⟩ => ⟨T1, T2, h1, h2, hne⟩

/-- C2: zero error at the goal.  For every goal whose rotation kind is Fixed or None, with a
unit `direction`, and every reference transform `T0`, `GetClosestGoalTransform` returns a
transform `T` at which `GetError` returns with every entry it writes equal to 0: the first
`dims` entries of each output array are 0 and the others keep their prior values.  The
library is taken exact: the two basis vectors of `direction` are orthogonal to it, the
decoded goal rotation times its transpose is the identity, and the identity encodes to the
zero rotation vector. -/
theorem C2_zero_error_at_goal (L : Math3D K) (g : IKGoal K) (T0 : RigidTransform K)
    (rx0 ry0 : Vector3 K) (poserr orierr : Real3 K)
    (hrot : g.rotConstraint = RotFixed ∨ g.rotConstraint = RotNone)
    (hdir : Vector3.normSquared g.direction = 1)
    (hbx : Vector3.dot (L.getOrthogonalBasis g.direction).1 g.direction = 0)
    (hby : Vector3.dot (L.getOrthogonalBasis g.direction).2 g.direction = 0)
    (hR : Matrix3.mul (L.momentGetMatrix g.endRotation)
            (Matrix3.transpose (L.momentGetMatrix g.endRotation)) = Matrix3.identity)
    (hI : L.momentSetMatrix Matrix3.identity = Vector3.zero) :
    ∃ T, GetClosestGoalTransform L g T0 rx0 ry0 = Except.ok T ∧
      GetError L g T poserr orierr
        = Except.ok (Real3.zeroFirst g.posConstraint.dims poserr,
                     Real3.zeroFirst g.rotConstraint.dims orierr) := by
  rcases hrot with hr | hr
  · refine ⟨⟨L.momentGetMatrix g.endRotation,
      closestTranslation g T0 (L.momentGetMatrix g.endRotation)⟩, ?_, ?_⟩
    · simp [GetClosestGoalTransform, closestRotation, GetFixedGoalRotation, hr]
    · have hp := GetError_pos_closest L g T0 (L.momentGetMatrix g.endRotation) poserr
        hdir hbx hby
      simp [GetError, GetError_rot, hr, hp, Matrix3.mulTransposeB, hR, hI, Matrix3.IsFinite,
        Real3.zeroFirst, RotConstraint.dims, Vector3.zero]
  · refine ⟨⟨T0.R, closestTranslation g T0 T0.R⟩, ?_, ?_⟩
    · simp [GetClosestGoalTransform, closestRotation, hr]
    · have hp := GetError_pos_closest L g T0 T0.R poserr hdir hbx hby
      simp [GetError, GetError_rot, hr, hp, Real3.zeroFirst, RotConstraint.dims]

/-- Witness of C2: the rational library, a goal with Linear position along `(0,0,1)` and
Fixed rotation, and a reference transform translated to `(3,4,5)`. -/
theorem C2_zero_error_at_goal_witness :
    ∃ T, GetClosestGoalTransform ratLib lineGoal ⟨Matrix3.identity, ⟨3, 4, 5⟩⟩
          Vector3.zero Vector3.zero = Except.ok T ∧
      GetError ratLib lineGoal T ⟨7, 8, 9⟩ ⟨7, 8, 9⟩
        = Except.ok (Real3.zeroFirst lineGoal.posConstraint.dims ⟨7, 8, 9⟩,
                     Real3.zeroFirst lineGoal.rotConstraint.dims ⟨7, 8, 9⟩) :=
  C2_zero_error_at_goal ratLib lineGoal ⟨Matrix3.identity, ⟨3, 4, 5⟩⟩ Vector3.zero Vector3.zero
    ⟨7, 8, 9⟩ ⟨7, 8, 9⟩ (Or.inl rfl)
    (by simp [lineGoal, Vector3.normSquared, Vector3.dot])
    (by simp [lineGoal, ratLib, ratBasis, Vector3.dot])
    (by simp [lineGoal, ratLib, ratBasis, Vector3.dot])
    (by
      simp [lineGoal, ratLib, rodrigues, Vector3.dot, Matrix3.mul, Matrix3.transpose,
        Matrix3.identity]
      norm_num)
    (by simp [ratLib, Matrix3.identity, Vector3.smul, Vector3.zero])

/-- C3, counterexample: the record of a fully free goal whose `localPosition` is `(1,2,3)`,
read into a freshly constructed goal, leaves the stream good but `localPosition = (0,0,0)`:
the goal read differs from the goal written. -/
theorem C3_roundtrip_counterexample :
    (operatorRead ⟨operatorWrite strayGoal, false, false⟩ freeGoal 'x' 'x').1.fail = false ∧
    (operatorRead ⟨operatorWrite strayGoal, false, false⟩ freeGoal 'x' 'x').2.localPosition
      = ⟨0, 0, 0⟩ ∧
    strayGoal.localPosition = ⟨1, 2, 3⟩ ∧
    (operatorRead ⟨operatorWrite strayGoal, false, false⟩ freeGoal 'x' 'x').2 ≠ strayGoal := by
  have h : operatorRead ⟨operatorWrite strayGoal, false, false⟩ freeGoal 'x' 'x'
      = (⟨[], false, false⟩, freeGoal) := by
    simp [operatorRead, operatorWrite, strayGoal, freeGoal, IKGoal.init, readInt_ok, readChar,
      readPosition, readRotation, IStream.fail]
  rw [h]
  refine ⟨rfl, rfl, rfl, ?_⟩
  intro h2
  have := congrArg (fun g => g.localPosition.x) h2
  simp [strayGoal, freeGoal, IKGoal.init, Vector3.zero] at this

/-- C3, amended: reading the record that `operator <<` wrote for `g` into any goal `d`, from
a good stream, consumes exactly that record, leaves the stream good, and yields the goal
with the link indices and both kinds of `g` and with every vector the kinds of `g` give a
meaning to (localPosition and endPosition unless the position is None, direction for Planar
and Linear, localAxis for Axis and TwoAxis, endRotation unless the rotation is None) equal to
that of `g`; the remaining vectors are those `d` held before the read. -/
theorem C3_roundtrip_amended (g d : IKGoal K) (rest : List (Token K)) (ptype0 rtype0 : Char) :
    operatorRead ⟨operatorWrite g ++ rest, false, false⟩ d ptype0 rtype0
      = (⟨rest, false, false⟩, IKGoal.overwrite g d) := by
  rcases g with ⟨link, destLink, pc, lp, ep, dir, rc, la, er⟩
  rcases lp with ⟨lpx, lpy, lpz⟩
  rcases ep with ⟨epx, epy, epz⟩
  rcases dir with ⟨dx, dy, dz⟩
  rcases la with ⟨lax, lay, laz⟩
  rcases er with ⟨erx, ery, erz⟩
  cases pc <;> cases rc <;>
    simp [operatorRead, operatorWrite, readInt_ok, readChar, readReal, readVector3,
      writeVector3, readPosition, readRotation, IStream.fail, IKGoal.overwrite]

/-- C4: type characters in `operator >>`, on a good stream holding the two link indices
(numerals of type `int`).
(1) If the position-type character is none of N, P, L, F the read sets badbit and returns
with everything after that character still unread.  (2) If it is one of them, its fields are
present and the rotation-type character is none of N, T, A, F, the read sets badbit and
returns with everything after that character still unread.  (3) If both characters are
recognised and their fields are present, the read consumes the record and neither failbit
nor badbit is set. -/
theorem C4_type_characters (data : IKGoal K) (link destLink : CInt) (p r : Char)
    (lp ep dir la er : Vector3 K) (rest : List (Token K)) (ptype0 rtype0 : Char) :
    (p ∉ ['N', 'P', 'L', 'F'] →
      (operatorRead ⟨Token.int link.val :: Token.int destLink.val :: Token.chr p :: rest, false, false⟩
          data ptype0 rtype0).1 = ⟨rest, false, true⟩) ∧
    (p ∈ ['N', 'P', 'L', 'F'] → r ∉ ['N', 'T', 'A', 'F'] →
      (operatorRead ⟨Token.int link.val :: Token.int destLink.val :: Token.chr p ::
            (positionFields p lp ep dir ++ Token.chr r :: rest), false, false⟩
          data ptype0 rtype0).1 = ⟨rest, false, true⟩) ∧
    (p ∈ ['N', 'P', 'L', 'F'] → r ∈ ['N', 'T', 'A', 'F'] →
      (operatorRead ⟨Token.int link.val :: Token.int destLink.val :: Token.chr p ::
            (positionFields p lp ep dir ++ Token.chr r :: (rotationFields r la er ++ rest)),
            false, false⟩
          data ptype0 rtype0).1 = ⟨rest, false, false⟩) := by
  refine ⟨?_, ?_, ?_⟩
  · intro hp
    simp only [List.mem_cons, List.mem_singleton, List.not_mem_nil, or_false, not_or] at hp
    obtain ⟨h1, h2, h3, h4⟩ := hp
    simp [operatorRead, readInt_ok, readChar, readPosition, IStream.fail, h1, h2, h3, h4]
  · intro hp hr
    simp only [List.mem_cons, List.mem_singleton, List.not_mem_nil, or_false, not_or] at hp hr
    obtain ⟨h1, h2, h3, h4⟩ := hr
    rcases hp with rfl | rfl | rfl | rfl <;>
      simp [operatorRead, readInt_ok, readChar, readReal, readVector3, writeVector3,
        readPosition, readRotation, IStream.fail, positionFields, h1, h2, h3, h4]
  · intro hp hr
    simp only [List.mem_cons, List.mem_singleton, List.not_mem_nil, or_false] at hp hr
    rcases hp with rfl | rfl | rfl | rfl <;> rcases hr with rfl | rfl | rfl | rfl <;>
      simp [operatorRead, readInt_ok, readChar, readReal, readVector3, writeVector3,
        readPosition, readRotation, IStream.fail, positionFields, rotationFields]

/-- Witness of C4: the characters `X` (unrecognised), `F` and `A` on rational records. -/
theorem C4_type_characters_witness :
    ('X' ∉ ['N', 'P', 'L', 'F'] ∧
      (operatorRead ⟨Token.int 1 :: Token.int 2 :: Token.chr 'X' :: [Token.real (5 : ℚ)],
          false, false⟩ freeGoal 'x' 'x').1 = ⟨[Token.real 5], false, true⟩) ∧
    ('F' ∈ ['N', 'P', 'L', 'F'] ∧ 'X' ∉ ['N', 'T', 'A', 'F'] ∧
      (operatorRead ⟨Token.int 1 :: Token.int 2 :: Token.chr 'F' ::
            (positionFields 'F' ⟨1, 2, 3⟩ ⟨4, 5, 6⟩ ⟨0, 0, 1⟩
              ++ Token.chr 'X' :: [Token.real (5 : ℚ)]), false, false⟩
          freeGoal 'x' 'x').1 = ⟨[Token.real 5], false, true⟩) ∧
    ('F' ∈ ['N', 'P', 'L', 'F'] ∧ 'A' ∈ ['N', 'T', 'A', 'F'] ∧
      (operatorRead ⟨Token.int 1 :: Token.int 2 :: Token.chr 'F' ::
            (positionFields 'F' ⟨1, 2, 3⟩ ⟨4, 5, 6⟩ ⟨0, 0, 1⟩
              ++ Token.chr 'A' :: (rotationFields 'A' ⟨1, 0, 0⟩ ⟨0, 1, 0⟩
              ++ [Token.real (5 : ℚ)])), false, false⟩
          freeGoal 'x' 'x').1 = ⟨[Token.real 5], false, false⟩) :=
  ⟨⟨by decide,
    (C4_type_characters freeGoal (CInt.mk 1 (by decide)) (CInt.mk 2 (by decide)) 'X' 'X'
      ⟨1, 2, 3⟩ ⟨4, 5, 6⟩ ⟨0, 0, 1⟩ ⟨1, 0, 0⟩ ⟨0, 1, 0⟩
      [Token.real 5] 'x' 'x').1 (by decide)⟩,
   ⟨by decide, by decide,
    (C4_type_characters freeGoal (CInt.mk 1 (by decide)) (CInt.mk 2 (by decide)) 'F' 'X'
      ⟨1, 2, 3⟩ ⟨4, 5, 6⟩ ⟨0, 0, 1⟩ ⟨1, 0, 0⟩ ⟨0, 1, 0⟩
      [Token.real 5] 'x' 'x').2.1 (by decide) (by decide)⟩,
   ⟨by decide, by decide,
    (C4_type_characters freeGoal (CInt.mk 1 (by decide)) (CInt.mk 2 (by decide)) 'F' 'A'
      ⟨1, 2, 3⟩ ⟨4, 5, 6⟩ ⟨0, 0, 1⟩ ⟨1, 0, 0⟩ ⟨0, 1, 0⟩
      [Token.real 5] 'x' 'x').2.2 (by decide) (by decide)⟩⟩

/-- C5: degenerate fits of `SetFromPoints`, for every tolerance.  With no point the goal
becomes None/None; with one point it becomes Fixed at that correspondence with rotation None;
with two points whose local points are equal within the tolerance it becomes Fixed (at the
midpoints) with rotation None, whatever the two world points are. -/
theorem C5_SetFromPoints_degenerate (L : Math3D K) (g : IKGoal K) (tol : K) :
    SetFromPoints L g [] [] tol
        = Except.ok { g with posConstraint := PosNone, rotConstraint := RotNone } ∧
    (∀ l0 w0 : Vector3 K, SetFromPoints L g [l0] [w0] tol
        = Except.ok { g with localPosition := l0, posConstraint := PosFixed, endPosition := w0,
                             rotConstraint := RotNone }) ∧
    (∀ l0 l1 w0 w1 : Vector3 K, Vector3.isEqual l0 l1 tol = true →
      SetFromPoints L g [l0, l1] [w0, w1] tol
        = Except.ok { g with localPosition := Vector3.smul (1 / 2) (Vector3.add l0 l1),
                             posConstraint := PosFixed,
                             endPosition := Vector3.smul (1 / 2) (Vector3.add w0 w1),
                             rotConstraint := RotNone }) := by
  refine ⟨?_, ?_, ?_⟩
  · simp [SetFromPoints, SetFreeRotation, SetFreePosition]
  · intro l0 w0
    simp [SetFromPoints, SetFreeRotation, SetFixedPosition]
  · intro l0 l1 w0 w1 h
    simp [SetFromPoints, SetFreeRotation, SetFixedPosition, h]

/-- Witness of C5: two equal local points and two different world points, tolerance 0. -/
theorem C5_SetFromPoints_degenerate_witness :
    Vector3.isEqual (⟨1, 2, 3⟩ : Vector3 ℚ) ⟨1, 2, 3⟩ 0 = true ∧
    SetFromPoints ratLib freeGoal [⟨1, 2, 3⟩, ⟨1, 2, 3⟩] [⟨0, 0, 0⟩, ⟨4, 0, 0⟩] 0
      = Except.ok { freeGoal with
          localPosition := Vector3.smul (1 / 2) (Vector3.add ⟨1, 2, 3⟩ ⟨1, 2, 3⟩),
          posConstraint := PosFixed,
          endPosition := Vector3.smul (1 / 2) (Vector3.add ⟨0, 0, 0⟩ ⟨4, 0, 0⟩),
          rotConstraint := RotNone } :=
  ⟨isEqual_self _ (le_refl 0),
   (C5_SetFromPoints_degenerate ratLib freeGoal 0).2.2 _ _ _ _ (isEqual_self _ (le_refl 0))⟩

/-- C6: the two-point fit.  For every pair of correspondences and tolerance `tol ≥ 0`, when
normalising a nonzero vector gives a vector of squared norm 1 (here: for the local pair) and
`Epsilon ≥ 0`, `SetFromPoints` returns normally with position Fixed, `localPosition` the
midpoint of the local pair and `endPosition` the midpoint of the world pair; the rotation is
None if the local pair or the world pair coincides within `tol`, and otherwise Axis with
`localAxis = normalize(loc1-loc0)` and `endRotation = normalize(wor1-wor0)`. -/
theorem C6_SetFromPoints_two_points (L : Math3D K) (g : IKGoal K) (l0 l1 w0 w1 : Vector3 K)
    (tol : K) (htol : 0 ≤ tol) (heps : 0 ≤ L.Epsilon)
    (hunit : l0 ≠ l1 → Vector3.normSquared (L.normalize (Vector3.sub l1 l0)) = 1) :
    SetFromPoints L g [l0, l1] [w0, w1] tol
      = Except.ok
          (if Vector3.isEqual l0 l1 tol = true ∨ Vector3.isEqual w0 w1 tol = true then
            { g with localPosition := Vector3.smul (1 / 2) (Vector3.add l0 l1),
                     posConstraint := PosFixed,
                     endPosition := Vector3.smul (1 / 2) (Vector3.add w0 w1),
                     rotConstraint := RotNone }
          else
            { g with localPosition := Vector3.smul (1 / 2) (Vector3.add l0 l1),
                     posConstraint := PosFixed,
                     endPosition := Vector3.smul (1 / 2) (Vector3.add w0 w1),
                     rotConstraint := RotAxis,
                     localAxis := L.normalize (Vector3.sub l1 l0),
                     endRotation := L.normalize (Vector3.sub w1 w0) }) := by
  by_cases hc : Vector3.isEqual l0 l1 tol = true ∨ Vector3.isEqual w0 w1 tol = true
  · rw [if_pos hc]
    simp [SetFromPoints, SetFreeRotation, SetFixedPosition, hc]
  · rw [if_neg hc]
    have hne : l0 ≠ l1 := by
      intro h
      apply hc
      left
      rw [h]
      exact isEqual_self _ htol
    have hn := hunit hne
    have hc1 : ¬ Vector3.isEqual l0 l1 tol = true := fun h => hc (Or.inl h)
    have hc2 : ¬ Vector3.isEqual w0 w1 tol = true := fun h => hc (Or.inr h)
    simp [SetFromPoints, SetFixedPosition, SetAxisRotation, FuzzyEquals, hc1, hc2, hn, heps]

/-- Witness of C6: local pair (0,0,0),(3,4,0), world pair (0,0,0),(0,0,2), tolerance 1/1000. -/
theorem C6_SetFromPoints_two_points_witness :
    SetFromPoints ratLib freeGoal [⟨0, 0, 0⟩, ⟨3, 4, 0⟩] [⟨0, 0, 0⟩, ⟨0, 0, 2⟩] (1 / 1000)
      = Except.ok
          (if Vector3.isEqual (⟨0, 0, 0⟩ : Vector3 ℚ) ⟨3, 4, 0⟩ (1 / 1000) = true ∨
              Vector3.isEqual (⟨0, 0, 0⟩ : Vector3 ℚ) ⟨0, 0, 2⟩ (1 / 1000) = true then
            { freeGoal with
                localPosition := Vector3.smul (1 / 2) (Vector3.add ⟨0, 0, 0⟩ ⟨3, 4, 0⟩),
                posConstraint := PosFixed,
                endPosition := Vector3.smul (1 / 2) (Vector3.add ⟨0, 0, 0⟩ ⟨0, 0, 2⟩),
                rotConstraint := RotNone }
          else
            { freeGoal with
                localPosition := Vector3.smul (1 / 2) (Vector3.add ⟨0, 0, 0⟩ ⟨3, 4, 0⟩),
                posConstraint := PosFixed,
                endPosition := Vector3.smul (1 / 2) (Vector3.add ⟨0, 0, 0⟩ ⟨0, 0, 2⟩),
                rotConstraint := RotAxis,
                localAxis := ratLib.normalize (Vector3.sub ⟨3, 4, 0⟩ ⟨0, 0, 0⟩),
                endRotation := ratLib.normalize (Vector3.sub ⟨0, 0, 2⟩ ⟨0, 0, 0⟩) }) :=
  C6_SetFromPoints_two_points ratLib freeGoal ⟨0, 0, 0⟩ ⟨3, 4, 0⟩ ⟨0, 0, 0⟩ ⟨0, 0, 2⟩ (1 / 1000)
    (by norm_num) (by norm_num [ratLib])
    (by
      intro _
      simp [ratLib, Vector3.smul, Vector3.sub, Vector3.normSquared, Vector3.dot]
      norm_num)

/-- C7: the unit-norm precondition of `SetAxisRotation`.  The call fails its assertion for
every local axis whose squared norm is not equal to 1 up to `Epsilon` (for instance (2,0,0),
as soon as `Epsilon < 3`); for every local axis of squared norm 1 (and `Epsilon ≥ 0`) it
returns the goal with `rotConstraint = Axis`, `localAxis = locAxis`,
`endRotation = worldAxis` and the other fields unchanged. -/
theorem C7_SetAxisRotation_precondition (L : Math3D K) (g : IKGoal K)
    (locAxis worldAxis : Vector3 K) :
    (FuzzyEquals (Vector3.normSquared locAxis) 1 L.Epsilon = false →
      SetAxisRotation L g locAxis worldAxis = Except.error Failure.assertion) ∧
    (L.Epsilon < 3 →
      SetAxisRotation L g ⟨2, 0, 0⟩ worldAxis = Except.error Failure.assertion) ∧
    (0 ≤ L.Epsilon → Vector3.normSquared locAxis = 1 →
      SetAxisRotation L g locAxis worldAxis
        = Except.ok { g with rotConstraint := RotAxis, localAxis := locAxis,
                             endRotation := worldAxis }) := by
  refine ⟨?_, ?_, ?_⟩
  · intro h
    simp [SetAxisRotation, h]
  · intro h
    have h4 : Vector3.normSquared (⟨2, 0, 0⟩ : Vector3 K) - 1 = 3 := by
      simp [Vector3.normSquared, Vector3.dot]
      norm_num
    have : FuzzyEquals (Vector3.normSquared (⟨2, 0, 0⟩ : Vector3 K)) 1 L.Epsilon = false := by
      simp only [FuzzyEquals, h4, decide_eq_false_iff_not, not_le]
      rw [abs_of_pos (by norm_num : (0 : K) < 3)]
      exact h
    simp [SetAxisRotation, this]
  · intro h0 h1
    simp [SetAxisRotation, FuzzyEquals, h1, h0]

/-- Witness of C7: the rational library; (2,0,0) is rejected and (0,0,1) accepted. -/
theorem C7_SetAxisRotation_precondition_witness :
    (FuzzyEquals (Vector3.normSquared (⟨2, 0, 0⟩ : Vector3 ℚ)) 1 ratLib.Epsilon = false ∧
      SetAxisRotation ratLib freeGoal ⟨2, 0, 0⟩ ⟨0, 1, 0⟩ = Except.error Failure.assertion) ∧
    (ratLib.Epsilon < 3 ∧
      SetAxisRotation ratLib freeGoal ⟨2, 0, 0⟩ ⟨0, 1, 0⟩ = Except.error Failure.assertion) ∧
    (0 ≤ ratLib.Epsilon ∧ Vector3.normSquared (⟨0, 0, 1⟩ : Vector3 ℚ) = 1 ∧
      SetAxisRotation ratLib freeGoal ⟨0, 0, 1⟩ ⟨0, 1, 0⟩
        = Except.ok { freeGoal with rotConstraint := RotAxis, localAxis := ⟨0, 0, 1⟩,
                                    endRotation := ⟨0, 1, 0⟩ }) :=
  have hf : FuzzyEquals (Vector3.normSquared (⟨2, 0, 0⟩ : Vector3 ℚ)) 1 ratLib.Epsilon
      = false := by
    simp [FuzzyEquals, Vector3.normSquared, Vector3.dot, ratLib]
    norm_num
  have he : ratLib.Epsilon < 3 := by norm_num [ratLib]
  have h0 : 0 ≤ ratLib.Epsilon := by norm_num [ratLib]
  have h1 : Vector3.normSquared (⟨0, 0, 1⟩ : Vector3 ℚ) = 1 := by
    simp [Vector3.normSquared, Vector3.dot]
  ⟨⟨hf, (C7_SetAxisRotation_precondition ratLib freeGoal ⟨2, 0, 0⟩ ⟨0, 1, 0⟩).1 hf⟩,
   ⟨he, (C7_SetAxisRotation_precondition ratLib freeGoal ⟨2, 0, 0⟩ ⟨0, 1, 0⟩).2.1 he⟩,
   ⟨h0, h1, (C7_SetAxisRotation_precondition ratLib freeGoal ⟨0, 0, 1⟩ ⟨0, 1, 0⟩).2.2 h0 h1⟩⟩

/-- C8, counterexample: a normal, a line direction and a world axis of length 2 are all
stored as given by calls that complete: the goal is then Planar (Linear, Axis) with a
direction (end rotation) of squared norm 4. -/
theorem C8_unit_axis_counterexample :
    ((SetPlanarPosition freeGoal ⟨0, 0, 0⟩ ⟨2, 0, 0⟩).posConstraint = PosPlanar ∧
      Vector3.normSquared (SetPlanarPosition freeGoal ⟨0, 0, 0⟩ ⟨2, 0, 0⟩).direction = 4) ∧
    ((SetLinearPosition freeGoal ⟨0, 0, 0⟩ ⟨2, 0, 0⟩).posConstraint = PosLinear ∧
      Vector3.normSquared (SetLinearPosition freeGoal ⟨0, 0, 0⟩ ⟨2, 0, 0⟩).direction = 4) ∧
    (∃ g1, SetAxisRotation ratLib freeGoal ⟨1, 0, 0⟩ ⟨2, 0, 0⟩ = Except.ok g1 ∧
      g1.rotConstraint = RotAxis ∧ Vector3.normSquared g1.endRotation = 4) := by
  refine ⟨⟨rfl, ?_⟩, ⟨rfl, ?_⟩, ?_⟩
  · simp [SetPlanarPosition, Vector3.normSquared, Vector3.dot]
    norm_num
  · simp [SetLinearPosition, Vector3.normSquared, Vector3.dot]
    norm_num
  · refine ⟨{ freeGoal with rotConstraint := RotAxis, localAxis := ⟨1, 0, 0⟩,
                            endRotation := ⟨2, 0, 0⟩ }, ?_, rfl, ?_⟩
    · simp [SetAxisRotation, FuzzyEquals, Vector3.normSquared, Vector3.dot, ratLib]
    · simp [Vector3.normSquared, Vector3.dot]
      norm_num

/-- C8, amended: `SetPlanarPosition` and `SetLinearPosition` never fail and store the normal
(direction) exactly as given, whatever its length; `SetAxisRotation`, when it completes, has
stored `worldAxis` exactly as given, and its `localAxis` has squared norm within `Epsilon` of
1. -/
theorem C8_unit_axis_amended (L : Math3D K) (g : IKGoal K) (point v locAxis worldAxis : Vector3 K) :
    SetPlanarPosition g point v
        = { g with posConstraint := PosPlanar, endPosition := point, direction := v } ∧
    SetLinearPosition g point v
        = { g with posConstraint := PosLinear, endPosition := point, direction := v } ∧
    (∀ g1, SetAxisRotation L g locAxis worldAxis = Except.ok g1 →
      g1 = { g with rotConstraint := RotAxis, localAxis := locAxis, endRotation := worldAxis } ∧
      |Vector3.normSquared g1.localAxis - 1| ≤ L.Epsilon) := by
  refine ⟨rfl, rfl, ?_⟩
  intro g1 h
  unfold SetAxisRotation at h
  by_cases hf : FuzzyEquals (Vector3.normSquared locAxis) 1 L.Epsilon = true
  · simp only [hf, if_true, Except.ok.injEq] at h
    subst h
    refine ⟨rfl, ?_⟩
    simpa [FuzzyEquals] using hf
  · simp [hf] at h

/-- Witness of C8 (amended): a unit local axis with a world axis of length 2. -/
theorem C8_unit_axis_amended_witness :
    SetAxisRotation ratLib freeGoal ⟨1, 0, 0⟩ ⟨2, 0, 0⟩
        = Except.ok { freeGoal with rotConstraint := RotAxis, localAxis := ⟨1, 0, 0⟩,
                                    endRotation := ⟨2, 0, 0⟩ } ∧
    |Vector3.normSquared (⟨1, 0, 0⟩ : Vector3 ℚ) - 1| ≤ ratLib.Epsilon :=
  have h : SetAxisRotation ratLib freeGoal ⟨1, 0, 0⟩ ⟨2, 0, 0⟩
      = Except.ok { freeGoal with rotConstraint := RotAxis, localAxis := ⟨1, 0, 0⟩,
                                  endRotation := ⟨2, 0, 0⟩ } := by
    simp [SetAxisRotation, FuzzyEquals, Vector3.normSquared, Vector3.dot, ratLib]
  ⟨h, ((C8_unit_axis_amended ratLib freeGoal ⟨0, 0, 0⟩ ⟨0, 0, 0⟩ ⟨1, 0, 0⟩ ⟨2, 0, 0⟩).2.2 _ h).2⟩

/-- C9: the table of `RemovePositionAxis(dir)`, for every goal and every `dir`.  Fixed becomes
Linear with direction `normalize(dir)`; Linear becomes Planar with direction
`normalize(oldDirection x dir)` when `oldDirection . dir` is not zero up to `Epsilon`, and is
unchanged when it is; Planar becomes None when `oldDirection . dir` (the component of `dir`
along the plane normal) is not zero up to `Epsilon`, and is unchanged when it is; None stays
None.  No other field changes. -/
theorem C9_RemovePositionAxis_table (L : Math3D K) (g : IKGoal K) (dir : Vector3 K) :
    RemovePositionAxis L { g with posConstraint := PosFixed } dir
        = { g with direction := L.normalize dir, posConstraint := PosLinear } ∧
    RemovePositionAxis L { g with posConstraint := PosLinear } dir
        = (if FuzzyZero (Vector3.dot g.direction dir) L.Epsilon = true then
            { g with posConstraint := PosLinear }
          else { g with direction := L.normalize (Vector3.cross g.direction dir),
                        posConstraint := PosPlanar }) ∧
    RemovePositionAxis L { g with posConstraint := PosPlanar } dir
        = (if FuzzyZero (Vector3.dot g.direction dir) L.Epsilon = true then
            { g with posConstraint := PosPlanar }
          else { g with posConstraint := PosNone }) ∧
    RemovePositionAxis L { g with posConstraint := PosNone } dir
        = { g with posConstraint := PosNone } := by
  refine ⟨rfl, ?_, ?_, rfl⟩
  · by_cases h : FuzzyZero (Vector3.dot g.direction dir) L.Epsilon = true
    · simp [RemovePositionAxis, h]
    · simp [RemovePositionAxis, h]
  · by_cases h : FuzzyZero (Vector3.dot g.direction dir) L.Epsilon = true
    · simp [RemovePositionAxis, h]
    · simp [RemovePositionAxis, h]

/-- C10, the behaviour of the code: on a goal with Fixed position, when
`normalize(d) . d` is not zero up to `Epsilon` (as for every `d` of length above `Epsilon`),
the second `RemovePositionAxis(d)` is not a no-op: it makes the goal Planar with direction
`normalize(normalize(d) x d)`. -/
theorem C10_second_removal_changes_goal (L : Math3D K) (g : IKGoal K) (d : Vector3 K)
    (hfix : g.posConstraint = PosFixed)
    (hd : FuzzyZero (Vector3.dot (L.normalize d) d) L.Epsilon = false) :
    RemovePositionAxis L (RemovePositionAxis L g d) d
        = { g with direction := L.normalize (Vector3.cross (L.normalize d) d),
                   posConstraint := PosPlanar } ∧
    RemovePositionAxis L (RemovePositionAxis L g d) d ≠ RemovePositionAxis L g d := by
  have h1 : RemovePositionAxis L g d
      = { g with direction := L.normalize d, posConstraint := PosLinear } := by
    simp [RemovePositionAxis, hfix]
  have h2 : RemovePositionAxis L (RemovePositionAxis L g d) d
      = { g with direction := L.normalize (Vector3.cross (L.normalize d) d),
                 posConstraint := PosPlanar } := by
    rw [h1]
    simp [RemovePositionAxis, hd]
  refine ⟨h2, ?_⟩
  rw [h2, h1]
  intro h
  have := congrArg IKGoal.posConstraint h
  simp at this

/-- Witness of C10: the rational library, a Fixed goal and `d = (1,0,0)`; the second call
leaves a Planar goal whose direction is the normalised zero vector. -/
theorem C10_second_removal_changes_goal_witness :
    ({ freeGoal with posConstraint := PosFixed } : IKGoal ℚ).posConstraint = PosFixed ∧
    FuzzyZero (Vector3.dot (ratLib.normalize ⟨1, 0, 0⟩) ⟨1, 0, 0⟩) ratLib.Epsilon = false ∧
    RemovePositionAxis ratLib
        (RemovePositionAxis ratLib { freeGoal with posConstraint := PosFixed } ⟨1, 0, 0⟩)
        ⟨1, 0, 0⟩
      = { freeGoal with
            direction := ratLib.normalize (Vector3.cross (ratLib.normalize ⟨1, 0, 0⟩) ⟨1, 0, 0⟩),
            posConstraint := PosPlanar } :=
  have hd : FuzzyZero (Vector3.dot (ratLib.normalize ⟨1, 0, 0⟩) ⟨1, 0, 0⟩) ratLib.Epsilon
      = false := by
    simp [FuzzyZero, ratLib, Vector3.smul, Vector3.normSquared, Vector3.dot]
    norm_num
  ⟨rfl, hd,
   (C10_second_removal_changes_goal ratLib { freeGoal with posConstraint := PosFixed }
      ⟨1, 0, 0⟩ rfl hd).1⟩

/-- C11, the behaviour of the code: on a goal with Linear position, for every `d2` orthogonal
to the line direction (`direction . d2 = 0`, `Epsilon ≥ 0`), `RemovePositionAxis(d2)` changes
nothing: the goal stays Linear with its old direction, and does not become Planar. -/
theorem C11_orthogonal_removal_is_noop (L : Math3D K) (g : IKGoal K) (d2 : Vector3 K)
    (hlin : g.posConstraint = PosLinear) (heps : 0 ≤ L.Epsilon)
    (horth : Vector3.dot g.direction d2 = 0) :
    RemovePositionAxis L g d2 = g ∧
    (RemovePositionAxis L g d2).posConstraint ≠ PosPlanar := by
  have h : RemovePositionAxis L g d2 = g := by
    simp [RemovePositionAxis, hlin, horth, FuzzyZero, heps]
  rw [h, hlin]
  exact ⟨rfl, by decide⟩

/-- Witness of C11: the line along `(1,0,0)` and `d2 = (0,1,0)`. -/
theorem C11_orthogonal_removal_is_noop_witness :
    RemovePositionAxis ratLib
        { freeGoal with posConstraint := PosLinear, direction := ⟨1, 0, 0⟩ } ⟨0, 1, 0⟩
      = { freeGoal with posConstraint := PosLinear, direction := ⟨1, 0, 0⟩ } :=
  (C11_orthogonal_removal_is_noop ratLib
    { freeGoal with posConstraint := PosLinear, direction := ⟨1, 0, 0⟩ } ⟨0, 1, 0⟩ rfl
    (by norm_num [ratLib]) (by simp [Vector3.dot])).1

/-- C12, counterexample: on a goal with Fixed rotation and Linear position, with the unit
axis `(0,0,1)`, `RemoveRotationAxis(axis)` stops at the assertion `posConstraint == PosFixed`
of `GetFixedGoalTransform`. -/
theorem C12_RemoveRotationAxis_counterexample :
    lineGoal.rotConstraint = RotFixed ∧ lineGoal.posConstraint = PosLinear ∧
    Vector3.normSquared (⟨0, 0, 1⟩ : Vector3 ℚ) = 1 ∧
    RemoveRotationAxis ratLib lineGoal ⟨0, 0, 1⟩ = Except.error Failure.assertion := by
  refine ⟨rfl, rfl, ?_, ?_⟩
  · simp [Vector3.normSquared, Vector3.dot]
  · simp [RemoveRotationAxis, GetFixedGoalTransform, lineGoal, RotConstraint.toNat,
      PosConstraint.toNat]

/-- C12, amended: for every goal whose rotation kind is Fixed and every unit world axis (the
decoded goal rotation `R` being an orthogonal matrix, `Epsilon ≥ 0`), `RemoveRotationAxis(axis)`
returns normally exactly when the position kind is Fixed too, and then leaves
`rotConstraint = Axis`, `endRotation = axis` and `localAxis = transpose(R)·axis`, the other
fields unchanged; with any other position kind it fails the assertion of
`GetFixedGoalTransform`. -/
theorem C12_RemoveRotationAxis_amended (L : Math3D K) (g : IKGoal K) (axis : Vector3 K)
    (hrot : g.rotConstraint = RotFixed) (haxis : Vector3.normSquared axis = 1)
    (heps : 0 ≤ L.Epsilon)
    (hR : Matrix3.IsOrthogonal (L.momentGetMatrix g.endRotation)) :
    RemoveRotationAxis L g axis
      = (if g.posConstraint = PosFixed then
          Except.ok { g with rotConstraint := RotAxis,
                             localAxis := Matrix3.mulTranspose (L.momentGetMatrix g.endRotation) axis,
                             endRotation := axis }
        else Except.error Failure.assertion) := by
  have hn := normSquared_mulTranspose _ hR axis
  rw [haxis] at hn
  by_cases hp : g.posConstraint = PosFixed
  · simp [RemoveRotationAxis, GetFixedGoalTransform, GetRotationAboutLocalPoint, hrot, hp,
      RotConstraint.toNat, PosConstraint.toNat, SetAxisRotation, FuzzyEquals, hn, heps]
  · simp [RemoveRotationAxis, GetFixedGoalTransform, hrot, hp, RotConstraint.toNat,
      PosConstraint.toNat]

/-- Witness of C12 (amended): the goal with Fixed position and Fixed rotation, axis `(0,0,1)`. -/
theorem C12_RemoveRotationAxis_amended_witness :
    RemoveRotationAxis ratLib fixedGoal ⟨0, 0, 1⟩
      = (if fixedGoal.posConstraint = PosFixed then
          Except.ok { fixedGoal with
            rotConstraint := RotAxis,
            localAxis := Matrix3.mulTranspose (ratLib.momentGetMatrix fixedGoal.endRotation)
              ⟨0, 0, 1⟩,
            endRotation := ⟨0, 0, 1⟩ }
        else Except.error Failure.assertion) :=
  C12_RemoveRotationAxis_amended ratLib fixedGoal ⟨0, 0, 1⟩ rfl
    (by simp [Vector3.normSquared, Vector3.dot]) (by norm_num [ratLib])
    (by
      constructor <;>
        simp [fixedGoal, ratLib, rodrigues, Vector3.dot, Matrix3.mul, Matrix3.transpose,
          Matrix3.identity] <;> norm_num)

/-- C13: the unimplemented relaxations.  For both overloads of `RemoveRotationAxis`, a goal
whose rotation kind is None is returned unchanged, and a goal whose rotation kind is Axis or
TwoAxis ends in the fatal error, so no goal is returned. -/
theorem C13_unimplemented_relaxations (L : Math3D K) (g : IKGoal K) (p axis : Vector3 K) :
    RemoveRotationAxis L { g with rotConstraint := RotNone } axis
        = Except.ok { g with rotConstraint := RotNone } ∧
    RemoveRotationAxis_point L { g with rotConstraint := RotNone } p axis
        = Except.ok { g with rotConstraint := RotNone } ∧
    RemoveRotationAxis L { g with rotConstraint := RotAxis } axis
        = Except.error Failure.fatal ∧
    RemoveRotationAxis_point L { g with rotConstraint := RotAxis } p axis
        = Except.error Failure.fatal ∧
    RemoveRotationAxis L { g with rotConstraint := RotTwoAxis } axis
        = Except.error Failure.fatal ∧
    RemoveRotationAxis_point L { g with rotConstraint := RotTwoAxis } p axis
        = Except.error Failure.fatal := by
  refine ⟨?_, ?_, ?_, ?_, ?_, ?_⟩ <;>
    simp [RemoveRotationAxis, RemoveRotationAxis_point, RotConstraint.toNat,
      PosConstraint.toNat]

/-- C14: the position error of `GetError`, for every goal and every `Trel`.  With
`perr = Trel·localPosition - endPosition`: a Fixed goal writes the three entries `perr`; a
Linear goal writes two entries, the dot products of `perr` with the two vectors of
`getOrthogonalBasis(direction)`, and leaves the third; a Planar goal writes one entry,
`perr·direction`, and leaves the other two; a None goal leaves the array as it was.
`GetError` returns, with exactly these position entries, for every goal whose rotation kind
is not TwoAxis.  When `direction` is a unit vector and the two basis vectors are unit,
orthogonal to each other and to `direction`, the squares of the two Linear entries add up to
`|perr|^2 - (perr·direction)^2`. -/
theorem C14_GetError_position (L : Math3D K) (g : IKGoal K) (Trel : RigidTransform K)
    (poserr orierr : Real3 K) :
    GetError_pos L { g with posConstraint := PosFixed } Trel poserr
        = ⟨(Vector3.sub (RigidTransform.apply Trel g.localPosition) g.endPosition).x,
           (Vector3.sub (RigidTransform.apply Trel g.localPosition) g.endPosition).y,
           (Vector3.sub (RigidTransform.apply Trel g.localPosition) g.endPosition).z⟩ ∧
    GetError_pos L { g with posConstraint := PosLinear } Trel poserr
        = ⟨Vector3.dot (Vector3.sub (RigidTransform.apply Trel g.localPosition) g.endPosition)
             (L.getOrthogonalBasis g.direction).1,
           Vector3.dot (Vector3.sub (RigidTransform.apply Trel g.localPosition) g.endPosition)
             (L.getOrthogonalBasis g.direction).2,
           poserr.e2⟩ ∧
    GetError_pos L { g with posConstraint := PosPlanar } Trel poserr
        = ⟨Vector3.dot (Vector3.sub (RigidTransform.apply Trel g.localPosition) g.endPosition)
             g.direction,
           poserr.e1, poserr.e2⟩ ∧
    GetError_pos L { g with posConstraint := PosNone } Trel poserr = poserr ∧
    (g.rotConstraint ≠ RotTwoAxis →
      ∃ o, GetError L g Trel poserr orierr
        = Except.ok (GetError_pos L g Trel poserr, o)) ∧
    (Vector3.dot g.direction g.direction = 1 →
      Vector3.dot (L.getOrthogonalBasis g.direction).1
        (L.getOrthogonalBasis g.direction).1 = 1 →
      Vector3.dot (L.getOrthogonalBasis g.direction).2
        (L.getOrthogonalBasis g.direction).2 = 1 →
      Vector3.dot (L.getOrthogonalBasis g.direction).1
        (L.getOrthogonalBasis g.direction).2 = 0 →
      Vector3.dot (L.getOrthogonalBasis g.direction).1 g.direction = 0 →
      Vector3.dot (L.getOrthogonalBasis g.direction).2 g.direction = 0 →
      (GetError_pos L { g with posConstraint := PosLinear } Trel poserr).e0
            * (GetError_pos L { g with posConstraint := PosLinear } Trel poserr).e0
          + (GetError_pos L { g with posConstraint := PosLinear } Trel poserr).e1
            * (GetError_pos L { g with posConstraint := PosLinear } Trel poserr).e1
        = Vector3.normSquared
            (Vector3.sub (RigidTransform.apply Trel g.localPosition) g.endPosition)
          - Vector3.dot (Vector3.sub (RigidTransform.apply Trel g.localPosition) g.endPosition)
              g.direction
            * Vector3.dot
                (Vector3.sub (RigidTransform.apply Trel g.localPosition) g.endPosition)
                g.direction) := by
  refine ⟨?_, ?_, ?_, ?_, ?_, ?_⟩
  · simp [GetError_pos]
  · simp [GetError_pos]
  · simp [GetError_pos]
  · simp [GetError_pos]
  · intro hr
    have h : ∃ o, GetError_rot L g Trel orierr = Except.ok o := by
      unfold GetError_rot
      rcases hk : g.rotConstraint with _ | _ | _ | _
      · simp
      · simp
      · exact absurd hk hr
      · simp [Matrix3.IsFinite]
    obtain ⟨o, ho⟩ := h
    exact ⟨o, by simp [GetError, ho]⟩
  · intro hd hx hy hxy hxd hyd
    have hsum := orthonormal_sq_sum (L.getOrthogonalBasis g.direction).1
      (L.getOrthogonalBasis g.direction).2 g.direction
      (Vector3.sub (RigidTransform.apply Trel g.localPosition) g.endPosition)
      hx hy hd hxy hxd hyd
    simp only [GetError_pos, Vector3.normSquared]
    simp only [reduceCtorEq, if_false, if_true]
    linear_combination hsum

/-- Witness of C14: the rational library, the goal with a Linear position along `(0,0,1)`
and a Fixed rotation, and the quarter turn as `Trel`. -/
theorem C14_GetError_position_witness :
    (lineGoal.rotConstraint ≠ RotTwoAxis ∧
      ∃ o, GetError ratLib lineGoal quarterTurn ⟨7, 8, 9⟩ ⟨7, 8, 9⟩
        = Except.ok (GetError_pos ratLib lineGoal quarterTurn ⟨7, 8, 9⟩, o)) ∧
    (GetError_pos ratLib { lineGoal with posConstraint := PosLinear } quarterTurn ⟨7, 8, 9⟩).e0
          * (GetError_pos ratLib { lineGoal with posConstraint := PosLinear } quarterTurn
              ⟨7, 8, 9⟩).e0
        + (GetError_pos ratLib { lineGoal with posConstraint := PosLinear } quarterTurn
              ⟨7, 8, 9⟩).e1
          * (GetError_pos ratLib { lineGoal with posConstraint := PosLinear } quarterTurn
              ⟨7, 8, 9⟩).e1
      = Vector3.normSquared
          (Vector3.sub (RigidTransform.apply quarterTurn lineGoal.localPosition)
            lineGoal.endPosition)
        - Vector3.dot
            (Vector3.sub (RigidTransform.apply quarterTurn lineGoal.localPosition)
              lineGoal.endPosition) lineGoal.direction
          * Vector3.dot
              (Vector3.sub (RigidTransform.apply quarterTurn lineGoal.localPosition)
                lineGoal.endPosition) lineGoal.direction :=
  have hr : lineGoal.rotConstraint ≠ RotTwoAxis := by decide
  ⟨⟨hr, (C14_GetError_position ratLib lineGoal quarterTurn ⟨7, 8, 9⟩ ⟨7, 8, 9⟩).2.2.2.2.1 hr⟩,
   (C14_GetError_position ratLib lineGoal quarterTurn ⟨7, 8, 9⟩ ⟨7, 8, 9⟩).2.2.2.2.2
    (by simp [lineGoal, Vector3.dot])
    (by simp [lineGoal, ratLib, ratBasis, Vector3.dot])
    (by simp [lineGoal, ratLib, ratBasis, Vector3.dot])
    (by simp [lineGoal, ratLib, ratBasis, Vector3.dot])
    (by simp [lineGoal, ratLib, ratBasis, Vector3.dot])
    (by simp [lineGoal, ratLib, ratBasis, Vector3.dot])⟩

/-- C15: the rotation error of `GetError`.  A Fixed goal writes three orientation entries,
the rotation vector encoding `Trel.R·transpose(Rgoal)`; an Axis goal writes two, the dot
products of `Trel.R·localAxis` with the two vectors of `getOrthogonalBasis(endRotation)`, and
leaves the third; a None goal leaves the array as it was; a TwoAxis goal ends in the fatal
error.  In each returning case the position entries are those of the position half. -/
theorem C15_GetError_rotation (L : Math3D K) (g : IKGoal K) (Trel : RigidTransform K)
    (poserr orierr : Real3 K) :
    GetError L { g with rotConstraint := RotFixed } Trel poserr orierr
        = Except.ok
            (GetError_pos L { g with rotConstraint := RotFixed } Trel poserr,
             ⟨(L.momentSetMatrix (Matrix3.mul Trel.R
                  (Matrix3.transpose (L.momentGetMatrix g.endRotation)))).x,
              (L.momentSetMatrix (Matrix3.mul Trel.R
                  (Matrix3.transpose (L.momentGetMatrix g.endRotation)))).y,
              (L.momentSetMatrix (Matrix3.mul Trel.R
                  (Matrix3.transpose (L.momentGetMatrix g.endRotation)))).z⟩) ∧
    GetError L { g with rotConstraint := RotAxis } Trel poserr orierr
        = Except.ok
            (GetError_pos L { g with rotConstraint := RotAxis } Trel poserr,
             ⟨Vector3.dot (Matrix3.mulVec Trel.R g.localAxis)
                (L.getOrthogonalBasis g.endRotation).1,
              Vector3.dot (Matrix3.mulVec Trel.R g.localAxis)
                (L.getOrthogonalBasis g.endRotation).2,
              orierr.e2⟩) ∧
    GetError L { g with rotConstraint := RotNone } Trel poserr orierr
        = Except.ok (GetError_pos L { g with rotConstraint := RotNone } Trel poserr, orierr) ∧
    GetError L { g with rotConstraint := RotTwoAxis } Trel poserr orierr
        = Except.error Failure.fatal := by
  refine ⟨?_, ?_, ?_, ?_⟩ <;>
    simp [GetError, GetError_rot, Matrix3.mulTransposeB, Matrix3.IsFinite]

/-- C16: `GetEdgeGoalTransform`.  For every goal with unit `localAxis` and unit `endRotation`
and every angle `theta`, the library being exact there (the minimal rotation takes the unit
`localAxis` to the unit `endRotation`, and the angle-axis matrix fixes its unit axis), the
returned `T` satisfies `T·localPosition = endPosition` and `T.R·localAxis = endRotation`, and
`T.R` is the minimal rotation from `localAxis` to `endRotation` times the rotation by `theta`
about `localAxis`. -/
theorem C16_GetEdgeGoalTransform (L : Math3D K) (g : IKGoal K) (theta : K)
    (hl : Vector3.normSquared g.localAxis = 1) (he : Vector3.normSquared g.endRotation = 1)
    (hmin : Vector3.normSquared g.localAxis = 1 → Vector3.normSquared g.endRotation = 1 →
      Matrix3.mulVec (L.GetMinimalRotation g.localAxis g.endRotation) g.localAxis
        = g.endRotation)
    (haa : Vector3.normSquared g.localAxis = 1 →
      Matrix3.mulVec (L.angleAxisGetMatrix theta g.localAxis) g.localAxis = g.localAxis) :
    RigidTransform.apply (GetEdgeGoalTransform L g theta) g.localPosition = g.endPosition ∧
    Matrix3.mulVec (GetEdgeGoalTransform L g theta).R g.localAxis = g.endRotation ∧
    (GetEdgeGoalTransform L g theta).R
      = Matrix3.mul (L.GetMinimalRotation g.localAxis g.endRotation)
          (L.angleAxisGetMatrix theta g.localAxis) := by
  refine ⟨?_, ?_, rfl⟩
  · ext <;> simp [GetEdgeGoalTransform, RigidTransform.apply, Vector3.add, Vector3.sub]
  · show Matrix3.mulVec (Matrix3.mul (L.GetMinimalRotation g.localAxis g.endRotation)
        (L.angleAxisGetMatrix theta g.localAxis)) g.localAxis = g.endRotation
    rw [mulVec_mul, haa hl, hmin hl he]

/-- Witness of C16: the rational library, the Axis goal taking `(1,0,0)` to `(0,1,0)`, and
the angle of half-tangent 1. -/
theorem C16_GetEdgeGoalTransform_witness :
    RigidTransform.apply (GetEdgeGoalTransform ratLib axisGoal 1) axisGoal.localPosition
      = axisGoal.endPosition ∧
    Matrix3.mulVec (GetEdgeGoalTransform ratLib axisGoal 1).R axisGoal.localAxis
      = axisGoal.endRotation ∧
    (GetEdgeGoalTransform ratLib axisGoal 1).R
      = Matrix3.mul (ratLib.GetMinimalRotation axisGoal.localAxis axisGoal.endRotation)
          (ratLib.angleAxisGetMatrix 1 axisGoal.localAxis) :=
  C16_GetEdgeGoalTransform ratLib axisGoal 1
    (by simp [axisGoal, Vector3.normSquared, Vector3.dot])
    (by simp [axisGoal, Vector3.normSquared, Vector3.dot])
    (fun _ h => ratLib_minimal_maps _ h)
    (fun h => ratLib_angleAxis_fixes 1 _ h)

/-- C17, the behaviour of the code: for a goal with rotation kind Axis, unit `localAxis` and
unit `endRotation`, and a rigid reference `T0` (the library being exact at the arguments of
the call), the rotation `R` of the returned transform satisfies
`R·localAxis = T0.R·endRotation`; so `R·localAxis` differs from `endRotation` whenever `T0.R`
moves `endRotation`. -/
theorem C17_axis_branch_targets_reference_axis (L : Math3D K) (g : IKGoal K)
    (T0 : RigidTransform K) (rx0 ry0 : Vector3 K)
    (hrot : g.rotConstraint = RotAxis)
    (hl : Vector3.normSquared g.localAxis = 1) (he : Vector3.normSquared g.endRotation = 1)
    (hT0 : Matrix3.IsOrthogonal T0.R)
    (hmin : Vector3.normSquared g.localAxis = 1 →
      Vector3.normSquared (Matrix3.mulVec T0.R g.endRotation) = 1 →
      Matrix3.mulVec (L.GetMinimalRotation g.localAxis (Matrix3.mulVec T0.R g.endRotation))
        g.localAxis = Matrix3.mulVec T0.R g.endRotation)
    (haa : ∀ theta : K, Vector3.normSquared (Matrix3.mulVec T0.R g.endRotation) = 1 →
      Matrix3.mulVec (L.angleAxisGetMatrix theta (Matrix3.mulVec T0.R g.endRotation))
        (Matrix3.mulVec T0.R g.endRotation) = Matrix3.mulVec T0.R g.endRotation)
    (hne : Matrix3.mulVec T0.R g.endRotation ≠ g.endRotation) :
    ∃ T, GetClosestGoalTransform L g T0 rx0 ry0 = Except.ok T ∧
      Matrix3.mulVec T.R g.localAxis = Matrix3.mulVec T0.R g.endRotation ∧
      Matrix3.mulVec T.R g.localAxis ≠ g.endRotation := by
  have hu : Vector3.normSquared (Matrix3.mulVec T0.R g.endRotation) = 1 := by
    unfold Vector3.normSquared
    rw [dot_mulVec_of_orthogonal _ hT0]
    exact he
  obtain ⟨θ, hT⟩ := closestRotation_axis L g T0 rx0 ry0 hrot
  set R := Matrix3.mul (L.angleAxisGetMatrix θ (Matrix3.mulVec T0.R g.endRotation))
      (L.GetMinimalRotation g.localAxis (Matrix3.mulVec T0.R g.endRotation)) with hRdef
  have hRl : Matrix3.mulVec R g.localAxis = Matrix3.mulVec T0.R g.endRotation := by
    rw [hRdef, mulVec_mul, hmin hl hu, haa θ hu]
  refine ⟨⟨R, closestTranslation g T0 R⟩, ?_, hRl, ?_⟩
  · simp only [GetClosestGoalTransform, hT]
  · show Matrix3.mulVec R g.localAxis ≠ g.endRotation
    rw [hRl]
    exact hne

/-- Witness of C17: the rational library, the Axis goal taking `(1,0,0)` to `(0,1,0)`, and
the quarter turn about the first axis as reference. -/
theorem C17_axis_branch_targets_reference_axis_witness :
    ∃ T, GetClosestGoalTransform ratLib axisGoal quarterTurn Vector3.zero Vector3.zero
          = Except.ok T ∧
      Matrix3.mulVec T.R axisGoal.localAxis = Matrix3.mulVec quarterTurn.R axisGoal.endRotation ∧
      Matrix3.mulVec T.R axisGoal.localAxis ≠ axisGoal.endRotation :=
  C17_axis_branch_targets_reference_axis ratLib axisGoal quarterTurn Vector3.zero Vector3.zero
    rfl
    (by simp [axisGoal, Vector3.normSquared, Vector3.dot])
    (by simp [axisGoal, Vector3.normSquared, Vector3.dot])
    (by
      constructor <;>
        simp [quarterTurn, Vector3.dot, Matrix3.mul, Matrix3.transpose, Matrix3.identity])
    (fun _ h => ratLib_minimal_maps _ h)
    (fun t h => ratLib_angleAxis_fixes t _ h)
    (by simp [quarterTurn, axisGoal, Matrix3.mulVec, Vector3.dot])

/-- C19: relaxing a fixed goal keeps its pose feasible.  For every goal with Fixed position
and Fixed rotation, every point `p` and every unit `axis` (the decoded goal rotation being an
orthogonal matrix, `Epsilon ≥ 0`, and the two basis vectors of `axis` orthogonal to it),
`GetFixedGoalTransform` returns a transform `T`, `RemoveRotationAxis(p,axis)` returns a goal
with rotation kind Axis and position kind Fixed, `T·localPosition = endPosition = p` and
`T.R·localAxis = endRotation = axis` hold for the new goal, and `GetError(T)` on the new goal
writes three position entries and two orientation entries, all 0. -/
theorem C19_RemoveRotationAxis_keeps_pose (L : Math3D K) (g : IKGoal K) (p axis : Vector3 K)
    (poserr orierr : Real3 K)
    (hpos : g.posConstraint = PosFixed) (hrot : g.rotConstraint = RotFixed)
    (haxis : Vector3.normSquared axis = 1) (heps : 0 ≤ L.Epsilon)
    (hR : Matrix3.IsOrthogonal (L.momentGetMatrix g.endRotation))
    (hbx : Vector3.dot (L.getOrthogonalBasis axis).1 axis = 0)
    (hby : Vector3.dot (L.getOrthogonalBasis axis).2 axis = 0) :
    ∃ T g1, GetFixedGoalTransform L g = Except.ok T ∧
      RemoveRotationAxis_point L g p axis = Except.ok g1 ∧
      g1.rotConstraint = RotAxis ∧ g1.posConstraint = PosFixed ∧
      RigidTransform.apply T g1.localPosition = g1.endPosition ∧ g1.endPosition = p ∧
      Matrix3.mulVec T.R g1.localAxis = g1.endRotation ∧ g1.endRotation = axis ∧
      GetError L g1 T poserr orierr
        = Except.ok (Real3.zeroFirst 3 poserr, Real3.zeroFirst 2 orierr) := by
  have hn := normSquared_mulTranspose _ hR axis
  rw [haxis] at hn
  have hT : GetFixedGoalTransform L g
      = Except.ok (GetRotationAboutLocalPoint g.localPosition g.endPosition
          (L.momentGetMatrix g.endRotation)) := by
    simp [GetFixedGoalTransform, hpos, hrot]
  have hax : Matrix3.mulVec (L.momentGetMatrix g.endRotation)
      (Matrix3.mulTranspose (L.momentGetMatrix g.endRotation) axis) = axis :=
    mulVec_mulTranspose _ hR axis
  have hpt : RigidTransform.apply
      (GetRotationAboutLocalPoint g.localPosition g.endPosition
        (L.momentGetMatrix g.endRotation))
      (RigidTransform.mulInverse
        (GetRotationAboutLocalPoint g.localPosition g.endPosition
          (L.momentGetMatrix g.endRotation)) p) = p := by
    simp only [RigidTransform.apply, RigidTransform.mulInverse, GetRotationAboutLocalPoint]
    rw [mulVec_mulTranspose _ hR]
    ext <;> simp [Vector3.add, Vector3.sub]
  have hg1 : RemoveRotationAxis_point L g p axis
      = Except.ok { g with
          rotConstraint := RotAxis,
          localAxis := Matrix3.mulTranspose (L.momentGetMatrix g.endRotation) axis,
          endRotation := axis,
          localPosition := RigidTransform.mulInverse
            (GetRotationAboutLocalPoint g.localPosition g.endPosition
              (L.momentGetMatrix g.endRotation)) p,
          endPosition := p } := by
    simp [RemoveRotationAxis_point, hrot, RotConstraint.toNat, hT, SetAxisRotation,
      FuzzyEquals, GetRotationAboutLocalPoint, hn, heps]
  refine ⟨_, _, hT, hg1, rfl, hpos, hpt, rfl, hax, rfl, ?_⟩
  have hx : Vector3.dot axis (L.getOrthogonalBasis axis).1 = 0 := by
    rw [dot_comm]
    exact hbx
  have hy : Vector3.dot axis (L.getOrthogonalBasis axis).2 = 0 := by
    rw [dot_comm]
    exact hby
  have hax2 : Matrix3.mulVec
      (GetRotationAboutLocalPoint g.localPosition g.endPosition
        (L.momentGetMatrix g.endRotation)).R
      (Matrix3.mulTranspose (L.momentGetMatrix g.endRotation) axis) = axis := hax
  simp only [GetError, GetError_rot, GetError_pos, hpos, if_true, reduceCtorEq, if_false,
    hpt, hax2, hx, hy, Real3.zeroFirst]
  simp [Vector3.sub]

/-- Witness of C19: the rational library, the goal with Fixed position and Fixed rotation,
the point `(1,1,1)` and the axis `(0,0,1)`. -/
theorem C19_RemoveRotationAxis_keeps_pose_witness :
    ∃ T g1, GetFixedGoalTransform ratLib fixedGoal = Except.ok T ∧
      RemoveRotationAxis_point ratLib fixedGoal ⟨1, 1, 1⟩ ⟨0, 0, 1⟩ = Except.ok g1 ∧
      g1.rotConstraint = RotAxis ∧ g1.posConstraint = PosFixed ∧
      RigidTransform.apply T g1.localPosition = g1.endPosition ∧ g1.endPosition = ⟨1, 1, 1⟩ ∧
      Matrix3.mulVec T.R g1.localAxis = g1.endRotation ∧ g1.endRotation = ⟨0, 0, 1⟩ ∧
      GetError ratLib g1 T ⟨7, 8, 9⟩ ⟨7, 8, 9⟩
        = Except.ok (Real3.zeroFirst 3 ⟨7, 8, 9⟩, Real3.zeroFirst 2 ⟨7, 8, 9⟩) :=
  C19_RemoveRotationAxis_keeps_pose ratLib fixedGoal ⟨1, 1, 1⟩ ⟨0, 0, 1⟩ ⟨7, 8, 9⟩ ⟨7, 8, 9⟩
    rfl rfl (by simp [Vector3.normSquared, Vector3.dot]) (by norm_num [ratLib])
    (by
      constructor <;>
        simp [fixedGoal, ratLib, rodrigues, Vector3.dot, Matrix3.mul, Matrix3.transpose,
          Matrix3.identity] <;> norm_num)
    (by simp [ratLib, ratBasis, Vector3.dot])
    (by simp [ratLib, ratBasis, Vector3.dot])

/-- C20: `Transform` acts on the goal pose by composition.  For every goal with Fixed
position and Fixed rotation and every transform `T`, when the rotation-vector encoding
round-trips the matrix `T.R·Rgoal`, `Transform(T)` returns a goal whose
`GetFixedGoalTransform` is `T` composed with the `GetFixedGoalTransform` of the goal before
the call; `link`, `destLink`, both constraint kinds, `localPosition` and `localAxis` are
unchanged. -/
theorem C20_Transform_composes (L : Math3D K) (g : IKGoal K) (T : RigidTransform K)
    (hpos : g.posConstraint = PosFixed) (hrot : g.rotConstraint = RotFixed)
    (hround : L.momentGetMatrix
        (L.momentSetMatrix (Matrix3.mul T.R (L.momentGetMatrix g.endRotation)))
      = Matrix3.mul T.R (L.momentGetMatrix g.endRotation)) :
    ∃ g1 G, Transform L g T = Except.ok g1 ∧
      GetFixedGoalTransform L g = Except.ok G ∧
      GetFixedGoalTransform L g1 = Except.ok (RigidTransform.mul T G) ∧
      g1.link = g.link ∧ g1.destLink = g.destLink ∧
      g1.posConstraint = g.posConstraint ∧ g1.rotConstraint = g.rotConstraint ∧
      g1.localPosition = g.localPosition ∧ g1.localAxis = g.localAxis := by
  have hG : GetFixedGoalTransform L g
      = Except.ok (GetRotationAboutLocalPoint g.localPosition g.endPosition
          (L.momentGetMatrix g.endRotation)) := by
    simp [GetFixedGoalTransform, hpos, hrot]
  have hg1 : Transform L g T
      = Except.ok { g with
          endPosition := RigidTransform.apply T g.endPosition,
          direction := Matrix3.mulVec T.R g.direction,
          endRotation := L.momentSetMatrix
            (Matrix3.mul T.R (L.momentGetMatrix g.endRotation)) } := by
    simp [Transform, hrot, Matrix3.IsFinite]
  refine ⟨_, _, hg1, hG, ?_, rfl, rfl, rfl, rfl, rfl, rfl⟩
  simp only [GetFixedGoalTransform, hpos, hrot, if_true, hround, Except.ok.injEq]
  simp only [GetRotationAboutLocalPoint, RigidTransform.mul, RigidTransform.apply,
    RigidTransform.mk.injEq, true_and, mulVec_mul]
  ext <;> simp [Vector3.sub, Vector3.add, Matrix3.mulVec, Vector3.dot] <;> ring

/-- Witness of C20: the rational library, the goal with Fixed position and Fixed rotation,
and the quarter turn about the third axis. -/
theorem C20_Transform_composes_witness :
    ∃ g1 G, Transform ratLib fixedGoal zTurn = Except.ok g1 ∧
      GetFixedGoalTransform ratLib fixedGoal = Except.ok G ∧
      GetFixedGoalTransform ratLib g1 = Except.ok (RigidTransform.mul zTurn G) ∧
      g1.link = fixedGoal.link ∧ g1.destLink = fixedGoal.destLink ∧
      g1.posConstraint = fixedGoal.posConstraint ∧
      g1.rotConstraint = fixedGoal.rotConstraint ∧
      g1.localPosition = fixedGoal.localPosition ∧ g1.localAxis = fixedGoal.localAxis :=
  C20_Transform_composes ratLib fixedGoal zTurn rfl rfl
    (by
      simp [fixedGoal, zTurn, ratLib, rodrigues, Vector3.dot, Vector3.smul, Matrix3.mul,
        Matrix3.transpose]
      norm_num)

end Claims

end IK
